import Mathlib

/-!
Verification of the ts_ess_epm protocol-to-telemetry mapping engine.

This file gives a shallow embedding, in Lean 4, of the decoding and
assembly logic of the repository: the Modbus AGC150 connector
(`modbus_agc150_connector.py`, `enums.py`), the SNMP data client
(`snmp_data_client.py`, `mib_utils.py`) and the MIB tree holder
(`mib_tree_holder.py`).  Python machine values are modelled with
`Int`/`Nat`/`Rat`; Python exceptions with `Option`/`Except`; Python
dictionaries with insertion-ordered association lists.
-/

set_option maxRecDepth 16384

/-! ## Generic association-list helpers (model of Python dict lookup) -/

/-- Model of Python `s.startswith(p)`: character-level prefix test
(kept kernel-reducible by working on the character lists). -/
def strStartsWith (s p : String) : Bool :=
  List.isPrefixOf p.data s.data

/-- Strip leading and trailing whitespace (Python `str.strip`, as
performed by `int()` / `float()` on their argument). -/
def trimChars (cs : List Char) : List Char :=
  ((cs.dropWhile Char.isWhitespace).reverse.dropWhile Char.isWhitespace).reverse

/-- Split a character list on `'.'` (Python `s.split(".")`). -/
def splitOnDot : List Char → List (List Char)
  | [] => [[]]
  | c :: rest =>
    match splitOnDot rest with
    | [] => [[c]]
    | h :: t => if c = '.' then [] :: h :: t else (c :: h) :: t

/-- Lookup in an insertion-ordered association list (Python `d[k]` / `k in d`). -/
def alookup {α : Type} (l : List (String × α)) (k : String) : Option α :=
  (l.find? (fun p => p.1 == k)).map (fun p => p.2)

/-- Membership test, Python `k in d`. -/
def amem {α : Type} (l : List (String × α)) (k : String) : Bool :=
  (alookup l k).isSome

/-! ## Modbus AGC150 connector

Embedding of `enums.py` (`ARRAY_FIELDS_AGC150`,
`InputRegistersAgc150DecimalFactor`) and of
`ModbusAgc150Connector._get_xml_field_name` / `_process_modbus_value`.
-/

/-- `ARRAY_FIELDS_AGC150` from `enums.py`. -/
def arrayFieldsAgc150 : List (String × List String) :=
  [ ("anyAlarmPMS",
     ["anyAlarmPMS1", "anyAlarmPMS2", "anyAlarmPMS3", "anyAlarmPMS4",
      "anyAlarmPMS5", "anyAlarmPMS6", "anyAlarmPMS7", "anyAlarmPMS8"]),
    ("readyAutoStartDG",
     ["readyAutoStartDG1", "readyAutoStartDG2", "readyAutoStartDG3",
      "readyAutoStartDG4", "readyAutoStartDG5", "readyAutoStartDG6",
      "readyAutoStartDG7", "readyAutoStartDG8"]),
    ("windingTemperature",
     ["windingTemperature1", "windingTemperature2", "windingTemperature3"]) ]

/-- The `InputRegistersAgc150DecimalFactor` enum from `enums.py`:
field name to decimal factor. -/
def inputRegistersAgc150DecimalFactor : List (String × Nat) :=
  [ ("applicationVersion", 0), ("generatorVoltageL1L2", 0),
    ("generatorVoltageL2L3", 0), ("generatorVoltageL3L1", 0),
    ("generatorVoltageL1N", 0), ("generatorVoltageL2N", 0),
    ("generatorVoltageL3N", 0), ("generatorFrequencyL1", 2),
    ("generatorFrequencyL2", 2), ("generatorFrequencyL3", 2),
    ("generatorVoltagePhaseAngleL1L2", 1),
    ("generatorVoltagePhaseAngleL2L3", 1),
    ("generatorVoltagePhaseAngleL3L1", 1),
    ("generatorCurrentL1", 0), ("generatorCurrentL2", 0),
    ("generatorCurrentL3", 0), ("generatorPowerL1", 0),
    ("generatorPowerL2", 0), ("generatorPowerL3", 0),
    ("generatorPower", 0), ("generatorReactivePowerL1", 0),
    ("generatorReactivePowerL2", 0), ("generatorReactivePowerL3", 0),
    ("generatorReactivePower", 0), ("generatorApparentPowerL1", 0),
    ("generatorApparentPowerL2", 0), ("generatorApparentPowerL3", 0),
    ("generatorApparentPower", 0),
    ("generatorExportReactiveEnergyCounterTotal", 0),
    ("generatorExportActiveEnergyCounterDay", 0),
    ("generatorExportActiveEnergyCounterWeek", 0),
    ("generatorExportActiveEnergyCounterMonth", 0),
    ("generatorExportActiveEnergyCounterTotal", 0),
    ("generatorPF", 2), ("busBVoltageL1L2", 0), ("busBVoltageL2L3", 0),
    ("busBVoltageL3L1", 0), ("busBVoltageL1N", 0), ("busBVoltageL2N", 0),
    ("busBVoltageL3N", 0), ("busBFrequencyL1", 2), ("busBFrequencyL2", 2),
    ("busBFrequencyL3", 2), ("busBVoltagePhaseAngleL1L2", 1),
    ("busBVoltagePhaseAngleL2L3", 1), ("busBVoltagePhaseAngleL3L1", 1),
    ("uBBL1uGENL1PhaseAngle", 0), ("uBBL2uGENL2PhaseAngle", 0),
    ("uBBL3uGENL3PhaseAngle", 0), ("absoluteRunningHours", 0),
    ("relativeRunningHours", 0), ("numberAlarms", 0),
    ("numberUnacknowledgedAlarms", 0), ("numberActiveAcknowledgedAlarms", 0),
    ("numberGBOperations", 0), ("numberMBOperations", 0),
    ("startAttempts", 0), ("dcSupplyTerm12", 1),
    ("serviceTimer1RunningHours", 0), ("serviceTimer1RunningDays", 0),
    ("serviceTimer2RunningHours", 0), ("serviceTimer2RunningDays", 0),
    ("cosPhi", 2), ("cosPhiType", 0), ("rpm", 0),
    ("runningHoursLoadProfile", 0), ("multiInput20", 0),
    ("multiInput21", 0), ("multiInput22", 0), ("multiInput23", 0),
    ("mainsPower", 0), ("engineSpeed", 0),
    ("engineCoolantTemperature", 1), ("engineOilPressure", 2),
    ("numberActualFaults", 0), ("engineOilTemperature", 1),
    ("fuelTemperature", 0), ("intakeManifold1Pressure", 2),
    ("airInletTemperature", 0), ("coolantLevel", 1), ("fuelRate", 1),
    ("chargeAirPressure", 0), ("intakeManifold1Temperature", 0),
    ("driversDemandEnginePercentTorque", 0),
    ("actualEnginePercentTorque", 0), ("acceleratorPedalPosition", 0),
    ("percentLoadCurrentSpeed", 0), ("airInletPressure", 2),
    ("exhaustGasTemperature", 1), ("engineHours", 0),
    ("engineOilFilterDifferentialPressure", 2),
    ("keyswitchBatteryPotential", 1), ("fuelDeliveryPressure", 2),
    ("engineOilLevel", 1), ("crankcasePressure", 2),
    ("coolantPressure", 2), ("waterInFuel", 0), ("blowbyFlow", 0),
    ("fuelRailPressure", 0), ("timingRailPressure", 0),
    ("aftercoolerWaterInletTemperature", 0), ("turboOilTemperature", 1),
    ("particulateTrapInletPressure", 2),
    ("airFilterDifferentialPressure", 3),
    ("coolantFilterDifferentialPressure", 2), ("atmosphericPressure", 2),
    ("ambientAirTemperature", 1), ("exhaustTemperatureRight", 1),
    ("exhaustTemperatureLeft", 1), ("windingTemperature", 0),
    ("auxiliaryAnalogInfo", 0),
    ("engineTurbocharger1CompressorOutletTemperature", 0),
    ("engineIntercoolerTemperature", 0), ("engineTripFuel", 0),
    ("engineTotalFuel", 1), ("tripFuelGasseous", 0),
    ("totalFuelGasseous", 1) ]

/-- A value read from the Modbus client: a raw 16-bit register word or a
discrete-input bit (`value: int | bool` in `_process_modbus_value`). -/
inductive ModbusRead where
  | rint (v : Nat)
  | rbool (b : Bool)
  deriving DecidableEq

/-- A processed Modbus value (`ModbusValueType` in the source): Python
`int`, `float` (modelled as an exact rational) or `bool`. -/
inductive ModbusValue where
  | mint (i : Int)
  | mfloat (q : Rat)
  | mbool (b : Bool)
  deriving DecidableEq

/-- `ModbusAgc150Connector._get_xml_field_name`: strip the array-slot
number from a field name by searching `ARRAY_FIELDS_AGC150`. -/
def getXmlFieldName (fieldName : String) : String :=
  match arrayFieldsAgc150.find? (fun p => p.2.contains fieldName) with
  | some p => p.1
  | none => fieldName

/-- The unsigned-to-signed conversion in `_process_modbus_value`:
`value if value < 32768 else value - 65536`. -/
def signedOf (v : Nat) : Int :=
  if v < 32768 then (v : Int) else (v : Int) - 65536

/-- `ModbusAgc150Connector._process_modbus_value`.  `none` models a
`KeyError` from the `InputRegistersAgc150DecimalFactor` enum lookup. -/
def processModbusValue (field : String) (value : ModbusRead) :
    Option ModbusValue :=
  match value with
  | .rbool b => some (.mbool b)
  | .rint v =>
    let signedValue := signedOf v
    match alookup inputRegistersAgc150DecimalFactor (getXmlFieldName field) with
    | none => none
    | some decimalFactor =>
      if decimalFactor = 0 then some (.mint signedValue)
      else some (.mfloat ((signedValue : Rat) / (10 : Rat) ^ decimalFactor))

/-- The `DiscreteInputsAgc150` enum from `enums.py`: field name to
discrete-input address. -/
def discreteInputsAgc150 : List (String × Nat) :=
  [ ("gbPositionOn", 0), ("mbPositionOn", 1), ("running", 3),
    ("generatorVoltageFrequencyOk", 4), ("mainFailure", 5),
    ("blockMode", 6), ("manualMode", 7), ("semiAutoMode", 8),
    ("autoMode", 9), ("testMode", 10), ("gbPositionOff", 11),
    ("mbPositionOff", 12), ("island", 13), ("automaticMainsFailure", 14),
    ("peakShaving", 15), ("fixedPower", 16), ("mainsPowerExport", 17),
    ("loadTakeover", 18), ("powerManagement", 19), ("anyAlarmPMS1", 20),
    ("anyAlarmPMS2", 21), ("anyAlarmPMS3", 22), ("anyAlarmPMS4", 23),
    ("anyAlarmPMS5", 24), ("anyAlarmPMS6", 25), ("anyAlarmPMS7", 26),
    ("anyAlarmPMS8", 27), ("anyAlarmMains", 28), ("batteryTest", 29),
    ("readyAutoStartDG1", 31), ("readyAutoStartDG2", 32),
    ("readyAutoStartDG3", 33), ("readyAutoStartDG4", 34),
    ("readyAutoStartDG5", 35), ("readyAutoStartDG6", 36),
    ("readyAutoStartDG7", 37), ("readyAutoStartDG8", 38),
    ("mainSyncInhibit", 53), ("anyMainsSyncInhibit", 54) ]

/-- The `InputRegistersAgc150` enum from `enums.py`: field name to
input-register address. -/
def inputRegistersAgc150 : List (String × Nat) :=
  [ ("applicationVersion", 500), ("generatorVoltageL1L2", 501),
    ("generatorVoltageL2L3", 502), ("generatorVoltageL3L1", 503),
    ("generatorVoltageL1N", 504), ("generatorVoltageL2N", 505),
    ("generatorVoltageL3N", 506), ("generatorFrequencyL1", 507),
    ("generatorFrequencyL2", 508), ("generatorFrequencyL3", 509),
    ("generatorVoltagePhaseAngleL1L2", 510),
    ("generatorVoltagePhaseAngleL2L3", 511),
    ("generatorVoltagePhaseAngleL3L1", 512),
    ("generatorCurrentL1", 513), ("generatorCurrentL2", 514),
    ("generatorCurrentL3", 515), ("generatorPowerL1", 516),
    ("generatorPowerL2", 517), ("generatorPowerL3", 518),
    ("generatorPower", 519), ("generatorReactivePowerL1", 520),
    ("generatorReactivePowerL2", 521), ("generatorReactivePowerL3", 522),
    ("generatorReactivePower", 523), ("generatorApparentPowerL1", 524),
    ("generatorApparentPowerL2", 525), ("generatorApparentPowerL3", 526),
    ("generatorApparentPower", 527),
    ("generatorExportReactiveEnergyCounterTotal", 528),
    ("generatorExportActiveEnergyCounterDay", 530),
    ("generatorExportActiveEnergyCounterWeek", 532),
    ("generatorExportActiveEnergyCounterMonth", 534),
    ("generatorExportActiveEnergyCounterTotal", 536),
    ("generatorPF", 538), ("busBVoltageL1L2", 539),
    ("busBVoltageL2L3", 540), ("busBVoltageL3L1", 541),
    ("busBVoltageL1N", 542), ("busBVoltageL2N", 543),
    ("busBVoltageL3N", 544), ("busBFrequencyL1", 545),
    ("busBFrequencyL2", 546), ("busBFrequencyL3", 547),
    ("busBVoltagePhaseAngleL1L2", 548),
    ("busBVoltagePhaseAngleL2L3", 549),
    ("busBVoltagePhaseAngleL3L1", 550),
    ("uBBL1uGENL1PhaseAngle", 551), ("uBBL2uGENL2PhaseAngle", 552),
    ("uBBL3uGENL3PhaseAngle", 553), ("absoluteRunningHours", 554),
    ("relativeRunningHours", 556), ("numberAlarms", 558),
    ("numberUnacknowledgedAlarms", 559),
    ("numberActiveAcknowledgedAlarms", 560),
    ("numberGBOperations", 563), ("numberMBOperations", 564),
    ("startAttempts", 566), ("dcSupplyTerm12", 567),
    ("serviceTimer1RunningHours", 569), ("serviceTimer1RunningDays", 570),
    ("serviceTimer2RunningHours", 571), ("serviceTimer2RunningDays", 572),
    ("cosPhi", 573), ("cosPhiType", 574), ("rpm", 576),
    ("runningHoursLoadProfile", 577), ("multiInput20", 583),
    ("multiInput21", 584), ("multiInput22", 585), ("multiInput23", 587),
    ("mainsPower", 592), ("engineSpeed", 593),
    ("engineCoolantTemperature", 594), ("engineOilPressure", 595),
    ("numberActualFaults", 596), ("engineOilTemperature", 597),
    ("fuelTemperature", 598), ("intakeManifold1Pressure", 599),
    ("airInletTemperature", 600), ("coolantLevel", 601),
    ("fuelRate", 602), ("chargeAirPressure", 603),
    ("intakeManifold1Temperature", 604),
    ("driversDemandEnginePercentTorque", 605),
    ("actualEnginePercentTorque", 606),
    ("acceleratorPedalPosition", 607), ("percentLoadCurrentSpeed", 608),
    ("airInletPressure", 609), ("exhaustGasTemperature", 610),
    ("engineHours", 611), ("engineOilFilterDifferentialPressure", 612),
    ("keyswitchBatteryPotential", 613), ("fuelDeliveryPressure", 614),
    ("engineOilLevel", 615), ("crankcasePressure", 616),
    ("coolantPressure", 617), ("waterInFuel", 618), ("blowbyFlow", 619),
    ("fuelRailPressure", 620), ("timingRailPressure", 621),
    ("aftercoolerWaterInletTemperature", 622),
    ("turboOilTemperature", 623),
    ("particulateTrapInletPressure", 624),
    ("airFilterDifferentialPressure", 625),
    ("coolantFilterDifferentialPressure", 626),
    ("atmosphericPressure", 627), ("ambientAirTemperature", 628),
    ("exhaustTemperatureRight", 629), ("exhaustTemperatureLeft", 630),
    ("windingTemperature1", 631), ("windingTemperature2", 632),
    ("windingTemperature3", 633), ("auxiliaryAnalogInfo", 634),
    ("engineTurbocharger1CompressorOutletTemperature", 636),
    ("engineIntercoolerTemperature", 637), ("engineTripFuel", 638),
    ("engineTotalFuel", 639), ("tripFuelGasseous", 640),
    ("totalFuelGasseous", 641) ]

/-- A stored telemetry field value (`FieldValueType` in the source):
either one processed value or a pre-allocated array whose slots start as
`None`. -/
inductive FieldValue where
  | scalar (v : ModbusValue)
  | array (vs : List (Option ModbusValue))
  deriving DecidableEq

/-- Update an association list in place (Python dict assignment: replace
the value if the key exists, otherwise append at the end). -/
def aupdate {α : Type} (l : List (String × α)) (k : String) (v : α) :
    List (String × α) :=
  if amem l k then
    l.map (fun p => if p.1 == k then (k, v) else p)
  else l ++ [(k, v)]

/-- `ModbusAgc150Connector._save_field`: process a read value and store
it, either into the slot of a pre-allocated array field or directly as a
scalar.  `none` models an uncaught Python exception (enum `KeyError` or a
`ValueError` from `list.index`). -/
def saveField (fields : List (String × FieldValue)) (inputName : String)
    (readValue : ModbusRead) : Option (List (String × FieldValue)) :=
  let fieldName := getXmlFieldName inputName
  match processModbusValue fieldName readValue with
  | none => none
  | some processedValue =>
    match alookup fields fieldName with
    | some (.array vs) =>
      match alookup arrayFieldsAgc150 fieldName with
      | none => none
      | some arr =>
        match arr.indexOf? inputName with
        | none => none
        | some index =>
          some (aupdate fields fieldName (.array (vs.set index (some processedValue))))
    | _ => some (aupdate fields fieldName (.scalar processedValue))

/-- The state of the Modbus connection: the `connected` property of
`BaseModbusConnector` plus the responses the remote server would give
(`response.bits[0]` / `response.registers[0]`; `none` models an empty
response array, which `_process_modbus_response_array` skips). -/
structure ModbusConn where
  connected : Bool
  discretes : Nat → Option Bool
  registers : Nat → Option Nat

/-- One `set_write` call on a telemetry topic. -/
structure PublishCall where
  topic : String
  fields : List (String × FieldValue)

/-- `ModbusAgc150Connector._read_discrete_inputs`: loop over
`DiscreteInputsAgc150`, read one bit each and save it; raise
`RuntimeError` when not connected. -/
def readDiscreteInputsAgc (conn : ModbusConn)
    (fields : List (String × FieldValue)) :
    Except String (List (String × FieldValue)) :=
  if conn.connected then
    discreteInputsAgc150.foldlM
      (fun fs p =>
        match conn.discretes p.2 with
        | some b =>
          match saveField fs p.1 (.rbool b) with
          | some fs2 => .ok fs2
          | none => .error "KeyError"
        | none => .ok fs)
      fields
  else .error "AGC150 connector is not connected."

/-- `ModbusAgc150Connector._read_input_registers`: loop over
`InputRegistersAgc150`, read one word each and save it; raise
`RuntimeError` when not connected (source message has no trailing
period here). -/
def readInputRegistersAgc (conn : ModbusConn)
    (fields : List (String × FieldValue)) :
    Except String (List (String × FieldValue)) :=
  if conn.connected then
    inputRegistersAgc150.foldlM
      (fun fs p =>
        match conn.registers p.2 with
        | some v =>
          match saveField fs p.1 (.rint v) with
          | some fs2 => .ok fs2
          | none => .error "KeyError"
        | none => .ok fs)
      fields
  else .error "AGC150 connector is not connected"

/-- The array pre-allocation loop at the start of
`ModbusAgc150Connector.process_telemetry`: every array field of
`ARRAY_FIELDS_AGC150` is set to a `None`-filled list of its length. -/
def initAgcArrays (fields : List (String × FieldValue)) :
    List (String × FieldValue) :=
  arrayFieldsAgc150.foldl
    (fun fs p => aupdate fs p.1 (.array (List.replicate p.2.length none)))
    fields

/-- `ModbusAgc150Connector.process_telemetry` as a trace: the list of
publish calls made during the cycle, plus the raised error if any.
Discrete inputs are read first, then input registers, then one
`set_write` on `tel_agcGenset150`. -/
def processTelemetryAgc (conn : ModbusConn)
    (fields : List (String × FieldValue)) :
    List PublishCall × Option String :=
  if conn.connected then
    match readDiscreteInputsAgc conn (initAgcArrays fields) with
    | .error e => ([], some e)
    | .ok f1 =>
      match readInputRegistersAgc conn f1 with
      | .error e => ([], some e)
      | .ok f2 => ([⟨"tel_agcGenset150", f2⟩], none)
  else ([], some "AGC150 connector is not connected.")

/-! ## Models of the Python runtime pieces the SNMP client relies on

`int(str)` and `float(str)` on decimal literals, `bytes.fromhex`,
`bytes.decode("utf-8")`, and the two compiled regular expressions of
`snmp_data_client.py`.
-/

/-- Value of a decimal digit string. -/
def digitsToNat (cs : List Char) : Nat :=
  cs.foldl (fun a c => a * 10 + (c.toNat - 48)) 0

/-- Model of Python `int(str)` on decimal literals: optional surrounding
whitespace, optional sign, one or more digits. -/
def pyInt? (s : String) : Option Int :=
  let cs := trimChars s.data
  let (neg, ds) :=
    match cs with
    | '-' :: r => (true, r)
    | '+' :: r => (false, r)
    | _ => (false, cs)
  if !ds.isEmpty && ds.all Char.isDigit then
    some (if neg then -(digitsToNat ds : Int) else (digitsToNat ds : Int))
  else none

/-- Model of Python `float(str)` on finite decimal literals: optional
surrounding whitespace, optional sign, `digits [. digits]` or
`. digits`, optional exponent `(e|E) [sign] digits`.  The result is the
exact rational value. -/
def pyFloat? (s : String) : Option Rat :=
  let cs := trimChars s.data
  let (sgn, cs1) :=
    match cs with
    | '-' :: r => ((-1 : Rat), r)
    | '+' :: r => ((1 : Rat), r)
    | _ => ((1 : Rat), cs)
  let (ip, cs2) := cs1.span Char.isDigit
  let (fp, cs3) :=
    match cs2 with
    | '.' :: r => (some (r.span Char.isDigit).1, (r.span Char.isDigit).2)
    | _ => (none, cs2)
  let fracDigits := fp.getD []
  let mantOk := !ip.isEmpty || !fracDigits.isEmpty
  if !mantOk then none
  else
    let mant : Rat :=
      sgn * ((digitsToNat (ip ++ fracDigits) : Rat) / (10 : Rat) ^ fracDigits.length)
    match cs3 with
    | [] => some mant
    | e :: r1 =>
      if e = 'e' || e = 'E' then
        let (esgn, r2) :=
          match r1 with
          | '-' :: rr => ((-1 : Int), rr)
          | '+' :: rr => ((1 : Int), rr)
          | _ => ((1 : Int), r1)
        let (ed, r3) := r2.span Char.isDigit
        if !ed.isEmpty && r3.isEmpty then
          some (mant * (10 : Rat) ^ (esgn * (digitsToNat ed : Int)))
        else none
      else none

/-- Greedy match, at the head of the character list, of the numeric
literal pattern compiled in `snmp_data_client.py`:
`[-+]? ( \d* . \d+ | \d+ .? ) ( [Ee] [+-]? \d+ )?` (the dots stand for a
literal decimal point).  Returns the matched characters.  For this
pattern the greedy, first-alternative-first strategy coincides with
Python `re` semantics. -/
def matchNumericAt (cs : List Char) : Option (List Char) :=
  let (sgn, cs1) :=
    match cs with
    | c :: r => if c = '-' || c = '+' then ([c], r) else (([] : List Char), cs)
    | [] => (([] : List Char), ([] : List Char))
  let alt1 : Option (List Char × List Char) :=
    let (d1, r1) := cs1.span Char.isDigit
    match r1 with
    | '.' :: r2 =>
      let (d2, r3) := r2.span Char.isDigit
      if d2.isEmpty then none else some (d1 ++ '.' :: d2, r3)
    | _ => none
  let alt : Option (List Char × List Char) :=
    match alt1 with
    | some x => some x
    | none =>
      let (d1, r1) := cs1.span Char.isDigit
      if d1.isEmpty then none
      else
        match r1 with
        | '.' :: r2 => some (d1 ++ ['.'], r2)
        | _ => some (d1, r1)
  match alt with
  | none => none
  | some (m, rest) =>
    let withExp : Option (List Char) :=
      match rest with
      | e :: r1 =>
        if e = 'e' || e = 'E' then
          let (sgn2, r2) :=
            match r1 with
            | c :: rr => if c = '+' || c = '-' then ([c], rr) else (([] : List Char), r1)
            | [] => (([] : List Char), ([] : List Char))
          let (ed, _) := r2.span Char.isDigit
          if ed.isEmpty then none else some (e :: (sgn2 ++ ed))
        else none
      | [] => none
    match withExp with
    | some ex => some (sgn ++ m ++ ex)
    | none => some (sgn ++ m)

/-- Leftmost match: try `matchNumericAt` at every start position in
order.  Models `rx.findall(s)[0]` (with `none` for an empty findall). -/
def findFirstNumericAux : List Char → Option (List Char)
  | [] => none
  | c :: rest =>
    match matchNumericAt (c :: rest) with
    | some m => some m
    | none => findFirstNumericAux rest

/-- String wrapper for `findFirstNumericAux`. -/
def findFirstNumeric (s : String) : Option String :=
  (findFirstNumericAux s.data).map List.asString

/-- Model of `hx.findall(s)[0]` for the pattern `([a-zA-Z0-9]*)`: the
first (possibly empty) match is the longest alphanumeric run at the
start of the string. -/
def leadingAlnumRun (s : String) : String :=
  (s.data.takeWhile Char.isAlphanum).asString

/-- Value of one hexadecimal digit. -/
def hexDigitVal? (c : Char) : Option Nat :=
  if c.isDigit then some (c.toNat - 48)
  else if 'a' ≤ c && c ≤ 'f' then some (c.toNat - 87)
  else if 'A' ≤ c && c ≤ 'F' then some (c.toNat - 55)
  else none

/-- Model of Python `bytes.fromhex` on strings without whitespace: pairs
of hex digits; an odd length or a non-hex character raises
(`none`). -/
def hexBytes? : List Char → Option (List Nat)
  | [] => some []
  | [_] => none
  | c1 :: c2 :: rest => do
    let h ← hexDigitVal? c1
    let l ← hexDigitVal? c2
    let bs ← hexBytes? rest
    pure ((h * 16 + l) :: bs)

/-- Is this byte a UTF-8 continuation byte? -/
def isUtf8Cont (b : Nat) : Bool :=
  0x80 ≤ b && b ≤ 0xBF

/-- Model of Python `bytes.decode("utf-8")`: standard UTF-8 decoding
with rejection of overlong forms, surrogates, and out-of-range code
points; `none` models `UnicodeDecodeError`. -/
def utf8DecodeCore : List Nat → Option (List Char)
  | [] => some []
  | b1 :: rest =>
    if b1 < 0x80 then
      (utf8DecodeCore rest).map (fun cs => Char.ofNat b1 :: cs)
    else if 0xC2 ≤ b1 && b1 ≤ 0xDF then
      match rest with
      | b2 :: r =>
        if isUtf8Cont b2 then
          (utf8DecodeCore r).map
            (fun cs => Char.ofNat ((b1 - 0xC0) * 0x40 + (b2 - 0x80)) :: cs)
        else none
      | _ => none
    else if 0xE0 ≤ b1 && b1 ≤ 0xEF then
      match rest with
      | b2 :: b3 :: r =>
        let lo2 := if b1 = 0xE0 then 0xA0 else 0x80
        let hi2 := if b1 = 0xED then 0x9F else 0xBF
        if lo2 ≤ b2 && b2 ≤ hi2 && isUtf8Cont b3 then
          (utf8DecodeCore r).map
            (fun cs =>
              Char.ofNat
                ((b1 - 0xE0) * 0x1000 + (b2 - 0x80) * 0x40 + (b3 - 0x80)) :: cs)
        else none
      | _ => none
    else if 0xF0 ≤ b1 && b1 ≤ 0xF4 then
      match rest with
      | b2 :: b3 :: b4 :: r =>
        let lo2 := if b1 = 0xF0 then 0x90 else 0x80
        let hi2 := if b1 = 0xF4 then 0x8F else 0xBF
        if lo2 ≤ b2 && b2 ≤ hi2 && isUtf8Cont b3 && isUtf8Cont b4 then
          (utf8DecodeCore r).map
            (fun cs =>
              Char.ofNat
                ((b1 - 0xF0) * 0x40000 + (b2 - 0x80) * 0x1000 +
                  (b3 - 0x80) * 0x40 + (b4 - 0x80)) :: cs)
        else none
      | _ => none
    else none

/-- String wrapper for `utf8DecodeCore`. -/
def utf8Decode? (bs : List Nat) : Option String :=
  (utf8DecodeCore bs).map List.asString

/-! ## SNMP data client: value extraction and decoding -/

/-- Error raised out of `SnmpDataClient._extract_float_from_string`:
either the original `float()` `ValueError` re-raised at the end, or an
uncaught error from `bytes.fromhex` / `bytes.decode` inside the
fallback. -/
inductive ExtractError where
  | originalParse
  | fromhexError
  | unicodeError
  deriving DecidableEq

/-- `SnmpDataClient._extract_float_from_string`: try `float(s)` first;
on failure, if the string starts with `0x`, hex-decode the leading
alphanumeric run of the payload and re-interpret it as UTF-8 text; then
return the first substring of the (possibly hex-decoded) string that
matches the numeric pattern, or re-raise the original error if there is
none. -/
def extractFloatFromString (s : String) : Except ExtractError Rat :=
  match pyFloat? s with
  | some q => .ok q
  | none =>
    let decoded : Except ExtractError String :=
      if strStartsWith s "0x" then
        let payload := (s.data.drop 2).asString
        match hexBytes? (leadingAlnumRun payload).data with
        | none => .error .fromhexError
        | some bs =>
          match utf8Decode? bs with
          | none => .error .unicodeError
          | some t => .ok t
      else .ok s
    match decoded with
    | .error e => .error e
    | .ok t =>
      match findFirstNumeric t with
      | some numStr =>
        match pyFloat? numStr with
        | some q => .ok q
        | none => .error .originalParse
      | none => .error .originalParse

/-- The `TelemetryItemType` enum from `mib_utils.py`: MIB name to
declared value kind. -/
def telemetryItemType : List (String × String) :=
  [ ("aeActiveEDelivered", "float"), ("aeApparentEDelivered", "float"),
    ("aeReactiveEDelivered", "float"), ("aeResetDateTime", "string"),
    ("currentDrawMax1", "float"), ("currentDrawStatus1", "float"),
    ("fFrequency", "float"), ("lcIC", "float"), ("lcIa", "float"),
    ("lcIb", "float"), ("lcIn", "float"),
    ("measurementsExternalSensorValue", "float"),
    ("measurementsInletSensorValue", "float"),
    ("measurementsOutletSensorValue", "float"),
    ("midSerialNumber", "string"), ("outletStatus", "int"),
    ("pActivePa", "float"), ("pActivePb", "float"),
    ("pActivePc", "float"), ("pActivePtot", "float"),
    ("pApparentPa", "float"), ("pApparentPb", "float"),
    ("pApparentPc", "float"), ("pApparentPtot", "float"),
    ("pReactivePa", "float"), ("pReactivePb", "float"),
    ("pReactivePc", "float"), ("pReactivePtot", "float"),
    ("pfPfDisplacementA", "float"), ("pfPfDisplacementB", "float"),
    ("pfPfDisplacementC", "float"), ("pfPfDisplacementTotal", "float"),
    ("pfPfa", "float"), ("pfPfb", "float"), ("pfPfc", "float"),
    ("pfPftot", "float"), ("sysDescr", "string"), ("vVab", "float"),
    ("vVan", "float"), ("vVbc", "float"), ("vVbn", "float"),
    ("vVca", "float"), ("vVcn", "float"), ("xupsBatCapacity", "float"),
    ("xupsBatCurrent", "float"), ("xupsBatTimeRemaining", "float"),
    ("xupsBatVoltage", "float"), ("xupsBatteryAbmStatus", "int"),
    ("xupsBypassFrequency", "float"), ("xupsBypassTable", "string"),
    ("xupsBypassVoltage", "float"), ("xupsEnvAmbientTemp", "float"),
    ("xupsInputCurrent", "float"), ("xupsInputFrequency", "float"),
    ("xupsInputTable", "string"), ("xupsInputVoltage", "float"),
    ("xupsInputWatts", "float"), ("xupsOutputCurrent", "float"),
    ("xupsOutputFrequency", "float"), ("xupsOutputLoad", "float"),
    ("xupsOutputTable", "string"), ("xupsOutputVoltage", "float"),
    ("xupsOutputWatts", "float") ]

/-- A Python float, as produced by the telemetry decoding: a finite
value (exact rational in this model) or NaN (`math.nan`). -/
inductive PyFloat where
  | num (q : Rat)
  | nan
  deriving DecidableEq

/-- A decoded telemetry item value (`int | float | str`). -/
inductive TelemetryValue where
  | ival (i : Int)
  | fval (f : PyFloat)
  | sval (s : String)
  deriving DecidableEq

/-- Errors escaping `SnmpDataClient.get_telemetry_item_value`. -/
inductive GetError where
  | keyError
  | intParse
  | floatExtract (e : ExtractError)
  | typeError
  deriving DecidableEq

/-- `SnmpDataClient.get_telemetry_item_value`: decode the value at
`mibOid` in the poll result according to the declared kind of
`mibName`, substituting `0` / NaN / the empty string when the OID is
absent.  The final catch-all arm of the Python `match` passes the raw
result through (raising `KeyError` when absent). -/
def getTelemetryItemValue (snmpResult : List (String × String))
    (mibName mibOid : String) : Except GetError TelemetryValue :=
  match alookup telemetryItemType mibName with
  | none => .error .keyError
  | some telemetryType =>
    if telemetryType = "int" then
      match alookup snmpResult mibOid with
      | some v =>
        match pyInt? v with
        | some i => .ok (.ival i)
        | none => .error .intParse
      | none => .ok (.ival 0)
    else if telemetryType = "float" then
      match alookup snmpResult mibOid with
      | some v =>
        match extractFloatFromString v with
        | .ok q => .ok (.fval (.num q))
        | .error e => .error (.floatExtract e)
      | none => .ok (.fval .nan)
    else if telemetryType = "string" then
      match alookup snmpResult mibOid with
      | some v => .ok (.sval v)
      | none => .ok (.sval "")
    else
      match alookup snmpResult mibOid with
      | some v => .ok (.sval v)
      | none => .error .keyError

/-- `FREQUENCY_OID_LIST` from `mib_utils.py`. -/
def frequencyOidList : List String :=
  [ "1.3.6.1.4.1.534.1.3.1.0",
    "1.3.6.1.4.1.534.1.4.2.0",
    "1.3.6.1.4.1.534.1.5.1.0" ]

/-- Python `x / 10.0` on a decoded telemetry value: ints and floats
divide (int becomes float), NaN stays NaN, a string raises
`TypeError`. -/
def divTelemetryBy10 : TelemetryValue → Except GetError TelemetryValue
  | .ival i => .ok (.fval (.num ((i : Rat) / 10)))
  | .fval (.num q) => .ok (.fval (.num (q / 10)))
  | .fval .nan => .ok (.fval .nan)
  | .sval _ => .error .typeError

/-- A resolved telemetry field: one scalar or an ordered list. -/
inductive TelemetryField where
  | single (v : TelemetryValue)
  | multi (vs : List TelemetryValue)
  deriving DecidableEq

/-- The OID keys of the poll result whose identifier string starts with
`mibOid`, in encounter (insertion) order — the collection loop of the
indexed branch of `process_telemetry_item_for_misc_device`. -/
def collectPrefixed (snmpResult : List (String × String)) (mibOid : String) :
    List String :=
  (snmpResult.map Prod.fst).filter (fun oid => strStartsWith oid mibOid)

/-- `SnmpDataClient.process_telemetry_item_for_misc_device`.  The MIB
tree lookups of the source (`TelemetryItemName(telemetry_item).name`,
the node's OID and whether its parent has an `INDEX` clause) are
parameters here because the MIB documents themselves are data files;
`isList` is the value of `_is_single_or_multiple`.  The scalar branch
resolves `<nodeOid>.0`, falling back to `<nodeOid>.1`, and divides by 10
when the resolved OID is in `FREQUENCY_OID_LIST`. -/
def processTelemetryItemForMiscDevice (snmpResult : List (String × String))
    (mibName nodeOid : String) (parentHasIndex isList : Bool) :
    Except GetError TelemetryField :=
  if parentHasIndex && isList then do
    let vs ← (collectPrefixed snmpResult nodeOid).mapM
      (fun oid => getTelemetryItemValue snmpResult mibName oid)
    pure (.multi vs)
  else do
    let mibOid :=
      if amem snmpResult (nodeOid ++ ".0") then nodeOid ++ ".0"
      else nodeOid ++ ".1"
    let v ← getTelemetryItemValue snmpResult mibName mibOid
    if frequencyOidList.contains mibOid then
      let v2 ← divTelemetryBy10 v
      pure (.single v2)
    else
      pure (.single v)

/-! ## SNMP data client: Raritan processing -/

/-- `RaritanOid.InletTelemetry`. -/
def inletTelemetryOid : String := "1.3.6.1.4.1.13742.6.5.2.3.1.4"

/-- `RaritanOid.OutletTelemetry`. -/
def outletTelemetryOid : String := "1.3.6.1.4.1.13742.6.5.4.3.1.4"

/-- `RaritanOid.ExternalSensorTelemetry`. -/
def externalSensorTelemetryOid : String := "1.3.6.1.4.1.13742.6.5.5.3.1.4"

/-- The `RaritanItemId` enum from `mib_utils.py`: id to item name. -/
def raritanItemIdNames : List (Int × String) :=
  [ (1, "rmsCurrent"), (2, "peakCurrent"), (3, "unbalancedCurrent"),
    (4, "rmsVoltage"), (5, "activePower"), (6, "apparentPower"),
    (7, "powerFactor"), (8, "activeEnergy"), (9, "apparentEnergy"),
    (10, "temperature"), (11, "humidity"), (14, "onOff"),
    (22, "surgeProtectorStatus"), (23, "frequency"), (24, "phaseAngle"),
    (26, "residualCurrent"), (27, "rcmState"), (29, "reactivePower"),
    (32, "powerQuality"), (35, "displacementPowerFactor"),
    (36, "residualDcCurrent"), (51, "crestFactor"),
    (54, "activePowerDemand"), (55, "residualAcCurrent"),
    (57, "voltageThd"), (58, "currentThd"), (60, "unbalancedVoltage"),
    (61, "unbalancedLineLineCurrent"), (62, "unbalancedLineLineVoltage") ]

/-- `RaritanItemId(item_id).name`; `none` models the `ValueError` for an
id that is not in the enum. -/
def raritanItemIdName (i : Int) : Option String :=
  (raritanItemIdNames.find? (fun p => p.1 == i)).map (fun p => p.2)

/-- `RARITAN_EXT_SENS_DEC_DIGITS_IDS` from `mib_utils.py`. -/
def raritanExtSensDecDigitsIds : List (String × String) :=
  [ ("1", "temperature"), ("2", "humidity"), ("3", "temperature"),
    ("4", "humidity"), ("5", "onOff"), ("6", "onOff"), ("7", "onOff") ]

/-- Capitalize the first character, as the f-string of the Raritan
processing methods does to build the telemetry key. -/
def capFirst (s : String) : String :=
  match s.data with
  | [] => ""
  | c :: r => (c.toUpper :: r).asString

/-- Python list indexing `l[i]` with negative-index wrap-around; `none`
models `IndexError`. -/
def pyListGet? {α : Type} (l : List α) (i : Int) : Option α :=
  if 0 ≤ i then l.get? i.toNat
  else if (-i).toNat ≤ l.length then l.get? (l.length - (-i).toNat)
  else none

/-- Python `oid.split(".")`. -/
def splitOid (oid : String) : List String :=
  (splitOnDot oid.data).map List.asString

/-- An entry of the cached `raritan_decimal_digits` dict: a single digit
count (inlet items) or a per-row list (outlet and external-sensor
items). -/
inductive RaritanDD where
  | ddInt (n : Int)
  | ddList (ns : List Int)
  deriving DecidableEq

/-- An entry of the Raritan telemetry dict: scalar (inlet items) or
array (outlet items). -/
inductive RaritanField where
  | rscalar (q : Rat)
  | rlist (qs : List Rat)
  deriving DecidableEq

/-- The outlet-telemetry append: create the list on first use, assert it
is a list, append. -/
def outletAppend (dict : List (String × RaritanField)) (key : String)
    (q : Rat) : Except String (List (String × RaritanField)) :=
  let dict1 := if amem dict key then dict else dict ++ [(key, .rlist [])]
  match alookup dict1 key with
  | some (.rlist qs) => .ok (aupdate dict1 key (.rlist (qs ++ [q])))
  | _ => .error "AssertionError"

/-- The loop body of `_process_raritan_outlet_telemetry` for one poll
entry: parse the item id (last OID component) and the 1-based row index
(second-to-last component), look up the per-item decimal-digit list,
scale by the digit count at `item_index - 1` and append to the item's
array in the telemetry dict. -/
def raritanOutletStep (dd : List (String × RaritanDD))
    (dict : List (String × RaritanField)) (entry : String × String) :
    Except String (List (String × RaritanField)) :=
  if strStartsWith entry.1 outletTelemetryOid then
    match pyListGet? (splitOid entry.1) (-1) with
    | none => .error "IndexError"
    | some lastPart =>
      match pyInt? lastPart with
      | none => .error "ValueError"
      | some itemId =>
        match pyListGet? (splitOid entry.1) (-2) with
        | none => .error "IndexError"
        | some sndLastPart =>
          match pyInt? sndLastPart with
          | none => .error "ValueError"
          | some itemIndex =>
            match raritanItemIdName itemId with
            | none => .error "ValueError"
            | some itemName =>
              match alookup dd ("outlet" ++ capFirst itemName) with
              | none => .error "KeyError"
              | some (.ddInt _) => .error "AssertionError"
              | some (.ddList allDD) =>
                match pyListGet? allDD (itemIndex - 1) with
                | none => .error "IndexError"
                | some d =>
                  match pyInt? entry.2 with
                  | none => .error "ValueError"
                  | some raw =>
                    outletAppend dict ("outlet" ++ capFirst itemName)
                      ((raw : Rat) / (10 : Rat) ^ (d : Int))
  else .ok dict

/-- `SnmpDataClient._process_raritan_outlet_telemetry`: fold the step
over the poll result in encounter order. -/
def processRaritanOutletTelemetry (dd : List (String × RaritanDD))
    (snmpResult : List (String × String))
    (dict : List (String × RaritanField)) :
    Except String (List (String × RaritanField)) :=
  snmpResult.foldlM (raritanOutletStep dd) dict

/-- The loop body of `_process_raritan_inlet_telemetry` for one poll
entry: parse the item id (last OID component), look up the scalar
decimal-digit count, scale and store as a scalar. -/
def raritanInletStep (dd : List (String × RaritanDD))
    (dict : List (String × RaritanField)) (entry : String × String) :
    Except String (List (String × RaritanField)) :=
  if strStartsWith entry.1 inletTelemetryOid then
    match pyListGet? (splitOid entry.1) (-1) with
    | none => .error "IndexError"
    | some lastPart =>
      match pyInt? lastPart with
      | none => .error "ValueError"
      | some itemId =>
        match raritanItemIdName itemId with
        | none => .error "ValueError"
        | some itemName =>
          match alookup dd ("inlet" ++ capFirst itemName) with
          | none => .error "KeyError"
          | some (.ddList _) => .error "AssertionError"
          | some (.ddInt d) =>
            match pyInt? entry.2 with
            | none => .error "ValueError"
            | some raw =>
              .ok (aupdate dict ("inlet" ++ capFirst itemName)
                (.rscalar ((raw : Rat) / (10 : Rat) ^ (d : Int))))
  else .ok dict

/-- `SnmpDataClient._process_raritan_inlet_telemetry`. -/
def processRaritanInletTelemetry (dd : List (String × RaritanDD))
    (snmpResult : List (String × String))
    (dict : List (String × RaritanField)) :
    Except String (List (String × RaritanField)) :=
  snmpResult.foldlM (raritanInletStep dd) dict

/-- The mutable state of the `_process_raritan_external_sensor_telemetry`
loop: two fixed 2-slot arrays (pre-filled with NaN) and their write
cursors. -/
structure ExtSensorState where
  tempIndex : Nat
  temperatures : List PyFloat
  relHumIndex : Nat
  relativeHumidities : List PyFloat
  deriving DecidableEq

/-- The loop body of `_process_raritan_external_sensor_telemetry` for one
poll entry: map the item id through `RARITAN_EXT_SENS_DEC_DIGITS_IDS`,
scale a temperature or humidity reading by the cached digit count at the
current cursor, write it at the cursor and advance; other item kinds
are ignored. -/
def raritanExtSensorStep (dd : List (String × RaritanDD))
    (st : ExtSensorState) (entry : String × String) :
    Except String ExtSensorState :=
  if strStartsWith entry.1 externalSensorTelemetryOid then
    match pyListGet? (splitOid entry.1) (-1) with
    | none => .error "IndexError"
    | some lastPart =>
      match pyInt? lastPart with
      | none => .error "ValueError"
      | some itemId =>
        match alookup raritanExtSensDecDigitsIds (toString itemId) with
        | none => .error "KeyError"
        | some itemName =>
          match alookup dd itemName with
          | none => .error "KeyError"
          | some (.ddInt _) => .error "AssertionError"
          | some (.ddList digitsList) =>
            if itemName = "temperature" then
              match pyInt? entry.2 with
              | none => .error "ValueError"
              | some raw =>
                match pyListGet? digitsList (st.tempIndex : Int) with
                | none => .error "IndexError"
                | some d =>
                  if st.tempIndex < st.temperatures.length then
                    .ok { st with
                      temperatures := st.temperatures.set st.tempIndex
                        (.num ((raw : Rat) / (10 : Rat) ^ (d : Int))),
                      tempIndex := st.tempIndex + 1 }
                  else .error "IndexError"
            else if itemName = "humidity" then
              match pyInt? entry.2 with
              | none => .error "ValueError"
              | some raw =>
                match pyListGet? digitsList (st.relHumIndex : Int) with
                | none => .error "IndexError"
                | some d =>
                  if st.relHumIndex < st.relativeHumidities.length then
                    .ok { st with
                      relativeHumidities := st.relativeHumidities.set st.relHumIndex
                        (.num ((raw : Rat) / (10 : Rat) ^ (d : Int))),
                      relHumIndex := st.relHumIndex + 1 }
                  else .error "IndexError"
            else .ok st
  else .ok st

/-- `SnmpDataClient._process_raritan_external_sensor_telemetry`: fold
over the poll result, then publish one `tel_temperature` record (the two
slots padded with NaN up to the schema array length `nelts`) and one
`tel_relativeHumidity` record per slot of the fixed 2-slot humidity
array.  Returns (temperature array, humidities, publish topics in
order). -/
def processRaritanExternalSensorTelemetry (dd : List (String × RaritanDD))
    (snmpResult : List (String × String)) (nelts : Nat) :
    Except String (List PyFloat × List PyFloat × List String) :=
  match snmpResult.foldlM (raritanExtSensorStep dd)
      ⟨0, [PyFloat.nan, PyFloat.nan], 0, [PyFloat.nan, PyFloat.nan]⟩ with
  | .error e => .error e
  | .ok st =>
    .ok (st.temperatures ++ List.replicate (nelts - 2) PyFloat.nan,
         st.relativeHumidities,
         "tel_temperature" ::
           st.relativeHumidities.map (fun _ => "tel_relativeHumidity"))

/-- The per-field inputs `read_data` derives from the schema and the MIB
tree for a non-Raritan device. -/
structure MiscItemSpec where
  mibName : String
  nodeOid : String
  parentHasIndex : Bool
  isList : Bool

/-- Exception name for a `GetError`, for the unified trace error type. -/
def geMsg : GetError → String
  | .keyError => "KeyError"
  | .intParse => "ValueError"
  | .floatExtract _ => "ValueError"
  | .typeError => "TypeError"

/-- `SnmpDataClient.setup_reading` issues walk commands and caches the
system description (and, for Raritan, the decimal digits); it contains
no `set_write` call, so its publish trace is empty. -/
def setupReadingPublishes : List String := []

/-- `SnmpDataClient.read_data` as a publish trace: the topics written by
one read cycle, in order.  A non-Raritan device processes each schema
field into the telemetry dict and then writes the single
`tel_<deviceType>` topic; a Raritan device processes inlet and outlet
telemetry into the dict, publishes the external-sensor records (one
temperature, two relative-humidity), and then writes `tel_raritan`.
`deviceKnown` is the `device_type in self.mib_tree` test, whose failure
raises `ValueError` before any walk. -/
def readDataTrace (deviceType : String) (deviceKnown : Bool)
    (items : List MiscItemSpec) (snmpResult : List (String × String))
    (dd : List (String × RaritanDD)) (nelts : Nat) :
    Except String (List String) :=
  if !deviceKnown then .error "ValueError"
  else if deviceType = "raritan" then do
    let d1 ← processRaritanInletTelemetry dd snmpResult []
    let _ ← processRaritanOutletTelemetry dd snmpResult d1
    let r ← processRaritanExternalSensorTelemetry dd snmpResult nelts
    pure (r.2.2 ++ ["tel_raritan"])
  else do
    let _ ← items.mapM
      (fun it =>
        (processTelemetryItemForMiscDevice snmpResult it.mibName it.nodeOid
          it.parentHasIndex it.isList).mapError geMsg)
    pure ["tel_" ++ deviceType]

/-! ## MIB tree holder

Embedding of `mib_tree_holder.py`: the seeded default elements and the
three declaration-processing steps.  The parsed MIB documents are data
files of the repository, so the steps are modelled as functions of the
declaration already matched by the regular expressions (name, parent
name, numeric component — the component is the `(\d+)` group of the
terminal address assignment).
-/

/-- Kind of a MIB tree element (`MibTreeElementType`). -/
inductive MibNodeType where
  | branch
  | leaf
  deriving DecidableEq

/-- `MibTreeElement` from `mib_utils.py`.  The parent is held by value:
in the source it is a reference to an already-constructed node, so the
chain is finite there as well. -/
inductive MibElem where
  | mk (name description oid : String) (parent : Option MibElem)
      (etype : MibNodeType) (index : Option String)

/-- Name accessor. -/
def MibElem.name : MibElem → String
  | .mk n _ _ _ _ _ => n

/-- OID accessor. -/
def MibElem.oid : MibElem → String
  | .mk _ _ o _ _ _ => o

/-- Parent accessor. -/
def MibElem.parent : MibElem → Option MibElem
  | .mk _ _ _ p _ _ => p

/-- The seeded `snmp` root (`_add_default_elements`). -/
def snmpElem : MibElem := .mk "snmp" "snmp" "1.3.6.1" none .branch none

/-- The seeded `system` branch. -/
def systemElem : MibElem :=
  .mk "system" "system" "1.3.6.1.2" (some snmpElem) .branch none

/-- The seeded `sysDescr` branch.  Its OID extends its parent's by three
numeric components. -/
def sysDescrElem : MibElem :=
  .mk "sysDescr" "System Description." "1.3.6.1.2.1.1.1" (some systemElem)
    .branch none

/-- The seeded `private` branch. -/
def privateElem : MibElem :=
  .mk "private" "private" "1.3.6.1.4" (some snmpElem) .branch none

/-- The seeded `enterprises` branch. -/
def enterprisesElem : MibElem :=
  .mk "enterprises" "enterprises" "1.3.6.1.4.1" (some privateElem) .branch none

/-- The tree after `_add_default_elements`. -/
def defaultMibTree : List (String × MibElem) :=
  [ ("snmp", snmpElem), ("system", systemElem), ("sysDescr", sysDescrElem),
    ("private", privateElem), ("enterprises", enterprisesElem) ]

/-- `MibTreeHolder._get_name_replacement`. -/
def getNameReplacement (name : String) : String :=
  if name = "schneiderElectric" then "schneiderPm5xxx"
  else if name = "synaccess" then "netbooter"
  else if name = "xupsMIB" then "xups"
  else name

/-- The mutable state of `MibTreeHolder` during parsing: the tree and
the pending-modules dict (parent name to (module name, numeric
component)). -/
structure MibTreeState where
  mibTree : List (String × MibElem)
  pendingModules : List (String × (String × String))

/-- `MibTreeHolder._get_parent`. -/
def getParentElem (st : MibTreeState) (parentName : String) : Option MibElem :=
  alookup st.mibTree (getNameReplacement parentName)

/-- `MibTreeHolder._process_mod_id` (after the regexes have matched):
attach the module as a branch when the parent exists, otherwise record
it in the pending-modules dict keyed by the parent name — overwriting
any entry already pending for that parent. -/
def processModId (st : MibTreeState) (declName parentRaw oidComp : String) :
    MibTreeState :=
  let name := getNameReplacement declName
  let parentName := getNameReplacement parentRaw
  match getParentElem st parentName with
  | some parent =>
    { st with
      mibTree := aupdate st.mibTree name
        (.mk name name (parent.oid ++ "." ++ oidComp) (some parent) .branch none) }
  | none =>
    { st with pendingModules := aupdate st.pendingModules parentName (name, oidComp) }

/-- `MibTreeHolder._process_obj_id`: add the branch (its parent must
already exist — `assert`), then attach and pop any module pending on
this name. -/
def processObjId (st : MibTreeState) (declName parentRaw oidComp : String) :
    Except String MibTreeState :=
  let name := getNameReplacement declName
  match getParentElem st parentRaw with
  | none => .error "AssertionError"
  | some parent =>
    let st1 : MibTreeState :=
      { st with
        mibTree := aupdate st.mibTree name
          (.mk name name (parent.oid ++ "." ++ oidComp) (some parent) .branch none) }
    match alookup st1.pendingModules name with
    | none => .ok st1
    | some (branchName, oid2) =>
      match getParentElem st1 name with
      | none => .error "AssertionError"
      | some parent2 =>
        .ok { mibTree := aupdate st1.mibTree branchName
                (.mk branchName branchName (parent2.oid ++ "." ++ oid2)
                  (some parent2) .branch none),
              pendingModules :=
                st1.pendingModules.filter (fun p => p.1 ≠ name) }

/-- `MibTreeHolder._process_obj_type` (after scanning description and
optional `INDEX` clause): create a leaf whose OID extends the parent's
by the matched numeric component; the parent is looked up directly in
the tree dict (`KeyError` when absent). -/
def processObjType (st : MibTreeState) (name description : String)
    (index : Option String) (parentName oidComp : String) :
    Except String MibTreeState :=
  match alookup st.mibTree parentName with
  | none => .error "KeyError"
  | some parent =>
    .ok { st with
      mibTree := aupdate st.mibTree name
        (.mk name description (parent.oid ++ "." ++ oidComp) (some parent)
          .leaf index) }

/-- Is the string a single numeric OID component (what the `(\d+)` group
of the address-assignment regex matches)? -/
def isOidComponent (s : String) : Bool :=
  !s.isEmpty && s.data.all Char.isDigit

/-- Does `c` equal `p` extended by exactly one additional numeric
component? -/
def oneCompExt (p c : String) : Bool :=
  List.isPrefixOf (p.data ++ ['.']) c.data &&
    isOidComponent (List.asString (c.data.drop (p.data.length + 1)))

/-- Iterated parent: follow the parent chain `n` steps. -/
def iterParent : Option MibElem → Nat → Option MibElem
  | none, _ => none
  | some e, 0 => some e
  | some e, n + 1 => iterParent e.parent n

deriving instance DecidableEq for Except

/-! ## Claims -/

/-- C1: for every 16-bit register value `v` with per-field decimal scale
`s`, the decoded value is the two's-complement reinterpretation
(`v` if `v < 32768`, else `v - 65536`), kept as an integer when `s = 0`
and divided by `10^s` otherwise; in particular 32767 decodes unchanged
and 32768 decodes to -32768; boolean discrete-input values pass through
unconverted. -/
theorem c1_modbus_register_decode (field : String) (v : Nat) (s : Nat)
    (hv : v < 65536)
    (hs : alookup inputRegistersAgc150DecimalFactor (getXmlFieldName field) =
      some s) :
    (processModbusValue field (.rint v) =
      some (if s = 0 then .mint (signedOf v)
            else .mfloat ((signedOf v : Rat) / (10 : Rat) ^ s)))
    ∧ (∀ b : Bool, processModbusValue field (.rbool b) = some (.mbool b))
    ∧ (v < 32768 → signedOf v = (v : Int))
    ∧ (32768 ≤ v → signedOf v = (v : Int) - 65536)
    ∧ signedOf 32767 = 32767
    ∧ signedOf 32768 = -32768 := by
  refine ⟨?_, fun b => rfl, ?_, ?_, by decide, by decide⟩
  · simp only [processModbusValue, hs]
    by_cases h0 : s = 0 <;> simp [h0]
  · intro h
    simp [signedOf, h]
  · intro h
    simp [signedOf, Nat.not_lt.mpr h]

/-- Witness for C1 at the field `generatorFrequencyL1` (scale 2) and the
boundary raw value 32768. -/
theorem c1_modbus_register_decode_witness :
    32768 < 65536 ∧
      processModbusValue "generatorFrequencyL1" (.rint 32768) =
        some (.mfloat ((-32768 : Rat) / 100)) := by
  have h := c1_modbus_register_decode "generatorFrequencyL1" 32768 2
    (by decide) (by decide)
  refine ⟨by decide, ?_⟩
  have h1 := h.1
  norm_num [signedOf] at h1
  convert h1 using 3
  norm_num

/-- C8: a Modbus telemetry cycle started while disconnected raises
immediately and publishes nothing, and register / discrete-input reads
attempted while disconnected likewise raise immediately. -/
theorem c8_disconnected_raises (conn : ModbusConn)
    (fields : List (String × FieldValue)) (h : conn.connected = false) :
    processTelemetryAgc conn fields =
      ([], some "AGC150 connector is not connected.")
    ∧ readDiscreteInputsAgc conn fields =
      .error "AGC150 connector is not connected."
    ∧ readInputRegistersAgc conn fields =
      .error "AGC150 connector is not connected" := by
  refine ⟨?_, ?_, ?_⟩ <;>
    simp [processTelemetryAgc, readDiscreteInputsAgc, readInputRegistersAgc, h]

/-- Witness for C8: a concrete disconnected connection. -/
theorem c8_disconnected_raises_witness :
    processTelemetryAgc ⟨false, fun _ => none, fun _ => none⟩ [] =
      ([], some "AGC150 connector is not connected.") :=
  (c8_disconnected_raises ⟨false, fun _ => none, fun _ => none⟩ [] rfl).1

/-- C9: for a multi-valued (indexed) field, membership in the collected
list is decided by string-prefix matching of identifier text, not by
OID-path descendance: the list holds exactly the poll results whose
identifier string starts with the node's OID string, decoded in
encounter order; in particular a result under the sibling node `...10`
is collected for the node `...1`. -/
theorem c9_prefix_collection (snmpResult : List (String × String))
    (mibName nodeOid : String) :
    processTelemetryItemForMiscDevice snmpResult mibName nodeOid true true =
      (((snmpResult.map Prod.fst).filter
          (fun oid => strStartsWith oid nodeOid)).mapM
        (fun oid => getTelemetryItemValue snmpResult mibName oid)).map
        TelemetryField.multi
    ∧ collectPrefixed [("1.3.6.1.4.1.534.1.4.10.1", "7")]
        "1.3.6.1.4.1.534.1.4.1" = ["1.3.6.1.4.1.534.1.4.10.1"] := by
  constructor
  · unfold processTelemetryItemForMiscDevice collectPrefixed
    simp only [Bool.and_self, if_pos]
    cases h : ((snmpResult.map Prod.fst).filter
        (fun oid => strStartsWith oid nodeOid)).mapM
        (fun oid => getTelemetryItemValue snmpResult mibName oid) with
    | ok vs => simp [h, Except.map]
    | error e => simp [h, Except.map]
  · decide

/-- The state reached in the C10 scenario after two MODULE-IDENTITY
declarations that forward-reference the same undeclared parent `foo`. -/
def c10state : MibTreeState :=
  processModId (processModId ⟨defaultMibTree, []⟩ "modA" "foo" "1")
    "modB" "foo" "2"

/-- C10: the pending-modules dict is keyed by parent name and holds at
most one entry per parent: after `modA` and then `modB` both
forward-reference the undeclared parent `foo`, only `modB` is pending;
when `foo` is then declared under `enterprises`, `modB` is attached
(OID `1.3.6.1.4.1.7.2`), the pending dict is emptied, and `modA` is
silently lost. -/
theorem c10_pending_overwrite :
    (processModId ⟨defaultMibTree, []⟩ "modA" "foo" "1").pendingModules =
      [("foo", ("modA", "1"))]
    ∧ c10state.pendingModules = [("foo", ("modB", "2"))]
    ∧ (processObjId c10state "foo" "enterprises" "7").toOption.map
        (fun st =>
          ((alookup st.mibTree "modA").isSome,
           (alookup st.mibTree "modB").map MibElem.oid,
           (alookup st.mibTree "foo").map MibElem.oid,
           st.pendingModules)) =
      some (false, some "1.3.6.1.4.1.7.2", some "1.3.6.1.4.1.7", []) := by
  refine ⟨rfl, rfl, rfl⟩

lemma alookup_cons {α : Type} (a : String × α) (t : List (String × α))
    (k : String) :
    alookup (a :: t) k = if a.1 == k then some a.2 else alookup t k := by
  by_cases h : a.1 == k
  · simp [alookup, List.find?_cons_of_pos, h]
  · simp [alookup, List.find?_cons_of_neg, h]

lemma alookup_aupdate_self {α : Type} (l : List (String × α)) (k : String)
    (v : α) :
    alookup (aupdate l k v) k = some v := by
  unfold aupdate
  by_cases h : amem l k
  · simp only [h, if_pos]
    induction l with
    | nil => simp [amem, alookup] at h
    | cons a t ih =>
      by_cases ha : a.1 == k
      · have ha2 : a.1 = k := by simpa using ha
        simp [alookup_cons, ha2]
      · have ht : amem t k := by
          unfold amem at h ⊢
          rwa [alookup_cons, if_neg ha] at h
        simp only [List.map_cons, if_neg ha]
        rw [alookup_cons]
        simp only [if_neg ha]
        exact ih ht
  · simp only [h, if_neg, Bool.false_eq_true, not_false_iff]
    induction l with
    | nil => simp [alookup_cons]
    | cons a t ih =>
      have ha : ¬(a.1 == k) := by
        intro hh
        apply h
        unfold amem
        rw [alookup_cons, if_pos hh]
        rfl
      have ht : ¬ amem t k = true := by
        intro hh
        apply h
        unfold amem at hh ⊢
        rwa [alookup_cons, if_neg ha]
      rw [List.cons_append, alookup_cons, if_neg ha]
      exact ih ht

lemma oneCompExt_append (p d : String) (hd : isOidComponent d = true) :
    oneCompExt p (p ++ "." ++ d) = true := by
  have hdata : (p ++ "." ++ d).data = (p.data ++ ['.']) ++ d.data := by
    simp [String.data_append]
  unfold oneCompExt
  rw [hdata]
  have h1 : List.isPrefixOf (p.data ++ ['.']) ((p.data ++ ['.']) ++ d.data) = true := by
    simp [List.isPrefixOf_iff_prefix]
  have h2 : ((p.data ++ ['.']) ++ d.data).drop (p.data.length + 1) = d.data := by
    have hl : (p.data ++ ['.']).length = p.data.length + 1 := by simp
    rw [← hl, List.drop_left]
  rw [h1, h2]
  have h3 : (d.data).asString = d := by
    cases d
    rfl
  simp [h3, hd]

lemma mibElem_reaches_root :
    ∀ e : MibElem, ∃ n r, iterParent (some e) n = some r ∧ r.parent = none
  | .mk nm d o none t i => ⟨0, .mk nm d o none t i, rfl, rfl⟩
  | .mk _ _ _ (some p) _ _ =>
    match mibElem_reaches_root p with
    | ⟨n, r, h1, h2⟩ => ⟨n + 1, r, h1, h2⟩

/-- C4 counterexample: the seeded default node `sysDescr` has parent
`system` but its object identifier extends the parent's by three numeric
components, not one. -/
theorem c4_counterexample :
    alookup defaultMibTree "sysDescr" = some sysDescrElem
    ∧ sysDescrElem.parent = some systemElem
    ∧ sysDescrElem.oid = systemElem.oid ++ ".1.1.1"
    ∧ oneCompExt systemElem.oid sysDescrElem.oid = false := by
  refine ⟨rfl, rfl, rfl, by decide⟩

/-- C4 amended: every node created by a MIB declaration-processing step
(OBJECT-TYPE leaf, OBJECT IDENTIFIER branch, MODULE-IDENTITY branch with
existing parent) has an object identifier equal to its parent's with
exactly one additional numeric component; among the seeded default
nodes this holds for all but `sysDescr`, whose identifier extends its
parent's by three components; the default identifiers are pairwise
distinct; and every element's parent chain is finite and ends at a
parentless root. -/
theorem c4_amended_one_component :
    (∀ st name description index parentName oidComp parent st2,
       alookup st.mibTree parentName = some parent →
       isOidComponent oidComp = true →
       processObjType st name description index parentName oidComp = .ok st2 →
       alookup st2.mibTree name =
         some (.mk name description (parent.oid ++ "." ++ oidComp)
           (some parent) .leaf index)
       ∧ oneCompExt parent.oid (parent.oid ++ "." ++ oidComp) = true)
    ∧ (∀ st declName parentRaw oidComp parent st2,
       getParentElem st parentRaw = some parent →
       isOidComponent oidComp = true →
       alookup st.pendingModules (getNameReplacement declName) = none →
       processObjId st declName parentRaw oidComp = .ok st2 →
       alookup st2.mibTree (getNameReplacement declName) =
         some (.mk (getNameReplacement declName) (getNameReplacement declName)
           (parent.oid ++ "." ++ oidComp) (some parent) .branch none)
       ∧ oneCompExt parent.oid (parent.oid ++ "." ++ oidComp) = true)
    ∧ (∀ st declName parentRaw oidComp parent,
       getParentElem st (getNameReplacement parentRaw) = some parent →
       isOidComponent oidComp = true →
       alookup (processModId st declName parentRaw oidComp).mibTree
           (getNameReplacement declName) =
         some (.mk (getNameReplacement declName) (getNameReplacement declName)
           (parent.oid ++ "." ++ oidComp) (some parent) .branch none)
       ∧ oneCompExt parent.oid (parent.oid ++ "." ++ oidComp) = true)
    ∧ (oneCompExt snmpElem.oid systemElem.oid = true
       ∧ oneCompExt snmpElem.oid privateElem.oid = true
       ∧ oneCompExt privateElem.oid enterprisesElem.oid = true
       ∧ oneCompExt systemElem.oid sysDescrElem.oid = false
       ∧ (defaultMibTree.map (fun p => (p.2).oid)).Nodup)
    ∧ (∀ e : MibElem, ∃ n r, iterParent (some e) n = some r ∧ r.parent = none) := by
  refine ⟨?_, ?_, ?_,
    ⟨by decide, by decide, by decide, by decide, by decide⟩,
    mibElem_reaches_root⟩
  · intro st name description index parentName oidComp parent st2 hp hd hres
    unfold processObjType at hres
    rw [hp] at hres
    cases hres
    exact ⟨alookup_aupdate_self _ _ _, oneCompExt_append _ _ hd⟩
  · intro st declName parentRaw oidComp parent st2 hp hd hpend hres
    unfold processObjId at hres
    rw [hp] at hres
    simp only [hpend] at hres
    cases hres
    exact ⟨alookup_aupdate_self _ _ _, oneCompExt_append _ _ hd⟩
  · intro st declName parentRaw oidComp parent hp hd
    unfold processModId
    simp only [hp]
    exact ⟨alookup_aupdate_self _ _ _, oneCompExt_append _ _ hd⟩

/-- Witness for C4's amended theorem: a concrete OBJECT-TYPE added under
`enterprises` extends the parent's identifier by one component. -/
theorem c4_amended_one_component_witness :
    isOidComponent "5" = true
    ∧ ∃ st2,
        processObjType ⟨defaultMibTree, []⟩ "leafX" "descr" none
          "enterprises" "5" = .ok st2
        ∧ alookup st2.mibTree "leafX" =
            some (.mk "leafX" "descr" ("1.3.6.1.4.1" ++ "." ++ "5")
              (some enterprisesElem) .leaf none)
        ∧ oneCompExt enterprisesElem.oid ("1.3.6.1.4.1" ++ "." ++ "5") = true := by
  refine ⟨by decide, ?_⟩
  have h := c4_amended_one_component.1 ⟨defaultMibTree, []⟩ "leafX" "descr"
    none "enterprises" "5" enterprisesElem _ rfl (by decide) rfl
  exact ⟨_, rfl, h.1, h.2⟩

/-- C3: when the resolved OID is absent from the poll result,
`get_telemetry_item_value` returns the kind-specific default without
raising (0 for int, NaN for float, empty string for string); when
present, an int field is parsed as an integer and a string field passes
the raw value through. -/
theorem c3_absent_defaults (snmpResult : List (String × String))
    (mibName mibOid : String) (kind : String)
    (hk : alookup telemetryItemType mibName = some kind) :
    (kind = "int" → alookup snmpResult mibOid = none →
      getTelemetryItemValue snmpResult mibName mibOid = .ok (.ival 0))
    ∧ (kind = "float" → alookup snmpResult mibOid = none →
      getTelemetryItemValue snmpResult mibName mibOid = .ok (.fval .nan))
    ∧ (kind = "string" → alookup snmpResult mibOid = none →
      getTelemetryItemValue snmpResult mibName mibOid = .ok (.sval ""))
    ∧ (kind = "int" → ∀ v i, alookup snmpResult mibOid = some v →
      pyInt? v = some i →
      getTelemetryItemValue snmpResult mibName mibOid = .ok (.ival i))
    ∧ (kind = "string" → ∀ v, alookup snmpResult mibOid = some v →
      getTelemetryItemValue snmpResult mibName mibOid = .ok (.sval v)) := by
  refine ⟨?_, ?_, ?_, ?_, ?_⟩
  · intro hkind habs
    subst hkind
    simp [getTelemetryItemValue, hk, habs]
  · intro hkind habs
    subst hkind
    simp [getTelemetryItemValue, hk, habs]
  · intro hkind habs
    subst hkind
    simp [getTelemetryItemValue, hk, habs]
  · intro hkind v i hv hi
    subst hkind
    simp [getTelemetryItemValue, hk, hv, hi]
  · intro hkind v hv
    subst hkind
    simp [getTelemetryItemValue, hk, hv]

/-- Witness for C3: the float field `xupsBatVoltage` and the int field
`xupsBatteryAbmStatus` against an empty poll result, and a present int
value. -/
theorem c3_absent_defaults_witness :
    getTelemetryItemValue [] "xupsBatVoltage" "1.2.3.0" = .ok (.fval .nan)
    ∧ getTelemetryItemValue [] "xupsBatteryAbmStatus" "1.2.3.0" = .ok (.ival 0)
    ∧ getTelemetryItemValue [] "xupsBypassTable" "1.2.3.0" = .ok (.sval "")
    ∧ getTelemetryItemValue [("1.2.3.0", "42")] "xupsBatteryAbmStatus"
        "1.2.3.0" = .ok (.ival 42) := by
  refine ⟨?_, ?_, ?_, ?_⟩
  · exact (c3_absent_defaults [] "xupsBatVoltage" "1.2.3.0" "float"
      (by decide)).2.1 rfl rfl
  · exact (c3_absent_defaults [] "xupsBatteryAbmStatus" "1.2.3.0" "int"
      (by decide)).1 rfl rfl
  · exact (c3_absent_defaults [] "xupsBypassTable" "1.2.3.0" "string"
      (by decide)).2.2.1 rfl rfl
  · exact (c3_absent_defaults [("1.2.3.0", "42")] "xupsBatteryAbmStatus"
      "1.2.3.0" "int" (by decide)).2.2.2.1 rfl "42" 42 rfl (by decide)

lemma except_bind_ok {ε α β : Type} (a : α) (f : α → Except ε β) :
    (Except.ok (ε := ε) a >>= f) = f a := rfl

/-- The scalar decode-and-scale path of
`process_telemetry_item_for_misc_device` for one resolved OID: decode
the value, then divide by 10 when the OID is in `FREQUENCY_OID_LIST`. -/
def scalarDecode (snmpResult : List (String × String))
    (mibName mibOid : String) : Except GetError TelemetryField := do
  let v ← getTelemetryItemValue snmpResult mibName mibOid
  if frequencyOidList.contains mibOid then
    let v2 ← divTelemetryBy10 v
    pure (.single v2)
  else
    pure (.single v)

/-- C5: a single-valued field of a non-Raritan device resolves exactly
one identifier, trying `<nodeOid>.0` first and falling back to
`<nodeOid>.1` when `.0` is absent; when the resolved identifier is in
the frequency-in-tens-of-hertz list the decoded value is divided by 10
(so the returned integer 500 decodes to the float 50). -/
theorem c5_scalar_resolution (snmpResult : List (String × String))
    (mibName nodeOid : String) (parentHasIndex isList : Bool)
    (hscalar : (parentHasIndex && isList) = false) :
    (amem snmpResult (nodeOid ++ ".0") = true →
      processTelemetryItemForMiscDevice snmpResult mibName nodeOid
          parentHasIndex isList =
        scalarDecode snmpResult mibName (nodeOid ++ ".0"))
    ∧ (amem snmpResult (nodeOid ++ ".0") = false →
      processTelemetryItemForMiscDevice snmpResult mibName nodeOid
          parentHasIndex isList =
        scalarDecode snmpResult mibName (nodeOid ++ ".1"))
    ∧ (∀ oid v, getTelemetryItemValue snmpResult mibName oid = .ok v →
        frequencyOidList.contains oid = true →
        scalarDecode snmpResult mibName oid =
          (divTelemetryBy10 v).map TelemetryField.single)
    ∧ (∀ oid v, getTelemetryItemValue snmpResult mibName oid = .ok v →
        frequencyOidList.contains oid = false →
        scalarDecode snmpResult mibName oid = .ok (.single v))
    ∧ (∀ i : Int, divTelemetryBy10 (.ival i) =
        .ok (.fval (.num ((i : Rat) / 10)))) := by
  refine ⟨?_, ?_, ?_, ?_, fun i => rfl⟩
  · intro h0
    unfold processTelemetryItemForMiscDevice scalarDecode
    simp [hscalar, h0]
  · intro h0
    unfold processTelemetryItemForMiscDevice scalarDecode
    simp [hscalar, h0]
  · intro oid v hget hfreq
    unfold scalarDecode
    rw [hget, except_bind_ok, if_pos hfreq]
    cases hd : divTelemetryBy10 v with
    | ok v2 => rfl
    | error e => rfl
  · intro oid v hget hfreq
    unfold scalarDecode
    rw [hget, except_bind_ok, if_neg]
    · rfl
    · simpa using hfreq

/-- Witness for C5: the xups input-frequency OID with raw value 500
decodes to 50. -/
theorem c5_scalar_resolution_witness :
    processTelemetryItemForMiscDevice [("1.3.6.1.4.1.534.1.3.1.0", "500")]
      "xupsInputFrequency" "1.3.6.1.4.1.534.1.3.1" false false =
      .ok (.single (.fval (.num 50))) := by
  have h := (c5_scalar_resolution [("1.3.6.1.4.1.534.1.3.1.0", "500")]
    "xupsInputFrequency" "1.3.6.1.4.1.534.1.3.1" false false rfl).1
    (by decide)
  rw [h]
  have htype : alookup telemetryItemType "xupsInputFrequency" = some "float" := by
    decide
  have hlook : alookup [("1.3.6.1.4.1.534.1.3.1.0", "500")]
      "1.3.6.1.4.1.534.1.3.1.0" = some "500" := by decide
  have hfloat : extractFloatFromString "500" = .ok 500 := by
    simp [extractFloatFromString, pyFloat?, trimChars, digitsToNat]
  have hget : getTelemetryItemValue [("1.3.6.1.4.1.534.1.3.1.0", "500")]
      "xupsInputFrequency" ("1.3.6.1.4.1.534.1.3.1" ++ ".0") =
      .ok (.fval (.num 500)) := by
    simp [getTelemetryItemValue, htype, hlook, hfloat]
  have hs := (c5_scalar_resolution [("1.3.6.1.4.1.534.1.3.1.0", "500")]
    "xupsInputFrequency" "1.3.6.1.4.1.534.1.3.1" false false rfl).2.2.1
    ("1.3.6.1.4.1.534.1.3.1" ++ ".0") (.fval (.num 500)) hget (by decide)
  rw [hs]
  show Except.ok (TelemetryField.single (.fval (.num ((500 : Rat) / 10)))) = _
  norm_num

/-- C2: `_extract_float_from_string` returns the parsed float when
direct parsing succeeds; when direct parsing fails and the string starts
with `0x`, the hex payload is decoded as bytes and interpreted as UTF-8
text, and the first substring matching the numeric-literal pattern is
returned; if no such substring exists in the (possibly hex-decoded)
string, the original parse error is raised. -/
theorem c2_float_fallback (s : String) :
    (∀ q, pyFloat? s = some q → extractFloatFromString s = .ok q)
    ∧ (pyFloat? s = none → strStartsWith s "0x" = true →
        ∀ bs t,
          hexBytes? (leadingAlnumRun ((s.data.drop 2).asString)).data = some bs →
          utf8Decode? bs = some t →
          ((findFirstNumeric t = none →
              extractFloatFromString s = .error .originalParse)
           ∧ (∀ m q, findFirstNumeric t = some m → pyFloat? m = some q →
               extractFloatFromString s = .ok q)))
    ∧ (pyFloat? s = none → strStartsWith s "0x" = false →
        ((findFirstNumeric s = none →
            extractFloatFromString s = .error .originalParse)
         ∧ (∀ m q, findFirstNumeric s = some m → pyFloat? m = some q →
             extractFloatFromString s = .ok q))) := by
  refine ⟨?_, ?_, ?_⟩
  · intro q hq
    unfold extractFloatFromString
    rw [hq]
  · intro hn hx bs t hbs ht
    constructor
    · intro hf
      simp only [extractFloatFromString, hn, hx, hbs, ht, hf, if_pos]
    · intro m q hm hq
      simp only [extractFloatFromString, hn, hx, hbs, ht, hm, hq, if_pos]
  · intro hn hx
    constructor
    · intro hf
      simp only [extractFloatFromString, hn, hx, hf, Bool.false_eq_true,
        if_neg, if_false]
    · intro m q hm hq
      simp only [extractFloatFromString, hn, hx, hm, hq, Bool.false_eq_true,
        if_neg, if_false]

/-- Witness for C2: the hex string decoding to the ASCII float `12.5`
followed by a NUL byte yields 12.5. -/
theorem c2_float_fallback_witness :
    extractFloatFromString "0x31322E3500" = .ok (25 / 2 : Rat) := by
  have h := (c2_float_fallback "0x31322E3500").2.1 (by decide) (by decide)
    [0x31, 0x32, 0x2E, 0x35, 0x00] "12.5\x00" (by decide) (by decide)
  refine h.2 "12.5" (25 / 2) (by decide) ?_
  simp [pyFloat?, trimChars, digitsToNat]
  norm_num

lemma raritanExtSensorStep_lengths (dd : List (String × RaritanDD))
    (st st' : ExtSensorState) (e : String × String)
    (h : raritanExtSensorStep dd st e = .ok st') :
    st'.temperatures.length = st.temperatures.length
    ∧ st'.relativeHumidities.length = st.relativeHumidities.length := by
  unfold raritanExtSensorStep at h
  repeat'
    first
      | cases h
      | split at h
  all_goals constructor <;> first | rfl | simp

lemma extSensor_fold_lengths (dd : List (String × RaritanDD)) :
    ∀ (es : List (String × String)) (st st' : ExtSensorState),
    es.foldlM (raritanExtSensorStep dd) st = .ok st' →
    st'.temperatures.length = st.temperatures.length
    ∧ st'.relativeHumidities.length = st.relativeHumidities.length := by
  intro es
  induction es with
  | nil =>
    intro st st' h
    cases h
    exact ⟨rfl, rfl⟩
  | cons e rest ih =>
    intro st st' h
    rw [List.foldlM_cons] at h
    cases hstep : raritanExtSensorStep dd st e with
    | error err => rw [hstep] at h; cases h
    | ok st1 =>
      rw [hstep, except_bind_ok] at h
      have h2 := ih st1 st' h
      have h1 := raritanExtSensorStep_lengths dd st st1 e hstep
      exact ⟨h2.1.trans h1.1, h2.2.trans h1.2⟩

lemma extSensor_topics (dd : List (String × RaritanDD))
    (snmpResult : List (String × String)) (nelts : Nat)
    (temps hums : List PyFloat) (topics : List String)
    (h : processRaritanExternalSensorTelemetry dd snmpResult nelts =
      .ok (temps, hums, topics)) :
    topics =
      ["tel_temperature", "tel_relativeHumidity", "tel_relativeHumidity"] := by
  unfold processRaritanExternalSensorTelemetry at h
  cases hfold : snmpResult.foldlM (raritanExtSensorStep dd)
      ⟨0, [PyFloat.nan, PyFloat.nan], 0, [PyFloat.nan, PyFloat.nan]⟩ with
  | error e => rw [hfold] at h; cases h
  | ok st =>
    rw [hfold] at h
    have hl := (extSensor_fold_lengths dd snmpResult _ st hfold).2
    cases h
    obtain ⟨a, b, hab⟩ := List.length_eq_two.mp hl
    rw [hab]
    rfl

/-- C7 counterexample: for the Raritan family one read cycle makes
three auxiliary publish calls (one temperature, two relative-humidity),
not two, before the primary `tel_raritan` publish. -/
theorem c7_counterexample :
    readDataTrace "raritan" true [] [] [] 16 =
      .ok ["tel_temperature", "tel_relativeHumidity", "tel_relativeHumidity",
        "tel_raritan"]
    ∧ (["tel_temperature", "tel_relativeHumidity", "tel_relativeHumidity",
        "tel_raritan"].filter (fun t => t ≠ "tel_raritan")).length = 3
    ∧ (3 : Nat) ≠ 2 := by
  refine ⟨by decide, by decide, by decide⟩

/-- C7 amended: `setup_reading` publishes nothing; one `read_data` call
for a non-Raritan family publishes exactly once, to the family's
primary topic; for the Raritan family it publishes exactly three
additional records, to two auxiliary topics (one `tel_temperature`, two
`tel_relativeHumidity`), followed by the primary `tel_raritan`. -/
theorem c7_amended_publish_counts :
    setupReadingPublishes = []
    ∧ (∀ (deviceType : String) (items : List MiscItemSpec) snmpResult dd
         (nelts : Nat) vs,
        deviceType ≠ "raritan" →
        items.mapM (fun it =>
          (processTelemetryItemForMiscDevice snmpResult it.mibName it.nodeOid
            it.parentHasIndex it.isList).mapError geMsg) = .ok vs →
        readDataTrace deviceType true items snmpResult dd nelts =
          .ok ["tel_" ++ deviceType])
    ∧ (∀ (items : List MiscItemSpec) snmpResult dd (nelts : Nat) d1 d2 r,
        processRaritanInletTelemetry dd snmpResult [] = .ok d1 →
        processRaritanOutletTelemetry dd snmpResult d1 = .ok d2 →
        processRaritanExternalSensorTelemetry dd snmpResult nelts = .ok r →
        readDataTrace "raritan" true items snmpResult dd nelts =
          .ok ["tel_temperature", "tel_relativeHumidity",
            "tel_relativeHumidity", "tel_raritan"]) := by
  refine ⟨rfl, ?_, ?_⟩
  · intro deviceType items snmpResult dd nelts vs hdev hok
    unfold readDataTrace
    rw [if_neg (by simp), if_neg hdev, hok, except_bind_ok]
    rfl
  · intro items snmpResult dd nelts d1 d2 r h1 h2 h3
    obtain ⟨temps, hums, topics⟩ := r
    have ht := extSensor_topics dd snmpResult nelts temps hums topics h3
    unfold readDataTrace
    rw [if_neg (by simp), if_pos rfl, h1, except_bind_ok, h2, except_bind_ok,
      h3, except_bind_ok, ht]
    rfl

/-- Witness for C7's amended theorem: concrete xups and Raritan cycles
over an empty poll result. -/
theorem c7_amended_publish_counts_witness :
    readDataTrace "xups" true [] [] [] 0 = .ok ["tel_xups"]
    ∧ readDataTrace "raritan" true [] [] [] 0 =
        .ok ["tel_temperature", "tel_relativeHumidity",
          "tel_relativeHumidity", "tel_raritan"] := by
  constructor
  · exact c7_amended_publish_counts.2.1 "xups" [] [] [] 0 [] (by decide) rfl
  · exact c7_amended_publish_counts.2.2 [] [] [] 0 [] []
      ([PyFloat.nan, PyFloat.nan] ++ List.replicate (0 - 2) PyFloat.nan,
       [PyFloat.nan, PyFloat.nan],
       ["tel_temperature", "tel_relativeHumidity", "tel_relativeHumidity"])
      rfl rfl rfl

/-- The facts `_process_raritan_outlet_telemetry` extracts from one
matching poll entry: the prefix test succeeds, the last OID component
parses to the item id, the second-to-last to the 1-based row index, and
the value to an integer. -/
def ParsesAsOutlet (e : String × String) (itemId row raw : Int) : Prop :=
  strStartsWith e.1 outletTelemetryOid = true
  ∧ (pyListGet? (splitOid e.1) (-1)).bind pyInt? = some itemId
  ∧ (pyListGet? (splitOid e.1) (-2)).bind pyInt? = some row
  ∧ pyInt? e.2 = some raw

/-- The scaled values a run of consecutive outlet rows produces: the row
at index `r` is divided by ten to the digit count at position `r - 1` of
the cached list. -/
def scaleRun (l : List Int) : Int → List Int → Option (List Rat)
  | _, [] => some []
  | r, raw :: rest =>
    match pyListGet? l (r - 1) with
    | none => none
    | some d =>
      match scaleRun l (r + 1) rest with
      | none => none
      | some tail => some (((raw : Rat) / (10 : Rat) ^ (d : Int)) :: tail)

/-- The telemetry dict holds list `qs` at `key`, where an absent key
stands for the empty list (it is created on first append). -/
def dictListAt (dict : List (String × RaritanField)) (key : String)
    (qs : List Rat) : Prop :=
  alookup dict key = some (.rlist qs)
  ∨ (alookup dict key = none ∧ qs = [])

lemma alookup_append_of_none {α : Type} (l : List (String × α)) (k : String)
    (v : α) (h : alookup l k = none) : alookup (l ++ [(k, v)]) k = some v := by
  induction l with
  | nil => simp [alookup_cons]
  | cons a t ih =>
    rw [alookup_cons] at h
    by_cases ha : a.1 == k
    · rw [if_pos ha] at h
      cases h
    · rw [if_neg ha] at h
      rw [List.cons_append, alookup_cons, if_neg ha]
      exact ih h

lemma alookup_map_update_ne {α : Type} (l : List (String × α))
    (k k' : String) (v : α) (h : k' ≠ k) :
    alookup (l.map (fun p => if p.1 == k then (k, v) else p)) k' =
      alookup l k' := by
  induction l with
  | nil => rfl
  | cons a t ih =>
    rw [List.map_cons, alookup_cons, alookup_cons]
    by_cases ha : (a.1 == k) = true
    · have ha2 : a.1 = k := by simpa using ha
      have h1 : ((k, v).1 == k') = false := by
        simp only [beq_eq_false_iff_ne]
        exact fun hh => h hh.symm
      have h2 : (a.1 == k') = false := by
        simp only [beq_eq_false_iff_ne, ha2]
        exact fun hh => h hh.symm
      rw [if_pos ha]
      simp only [h1, h2, Bool.false_eq_true, if_false]
      exact ih
    · rw [if_neg ha]
      by_cases ha3 : (a.1 == k') = true
      · rw [if_pos ha3, if_pos ha3]
      · rw [if_neg ha3, if_neg ha3]
        exact ih

lemma alookup_append_ne {α : Type} (l : List (String × α)) (k k' : String)
    (v : α) (h : k' ≠ k) :
    alookup (l ++ [(k, v)]) k' = alookup l k' := by
  induction l with
  | nil =>
    rw [List.nil_append, alookup_cons,
      if_neg (by simpa using fun hh : k = k' => h hh.symm)]
  | cons a t ih =>
    rw [List.cons_append, alookup_cons, alookup_cons]
    by_cases ha : (a.1 == k') = true
    · rw [if_pos ha, if_pos ha]
    · rw [if_neg ha, if_neg ha]
      exact ih

lemma alookup_aupdate_ne {α : Type} (l : List (String × α)) (k k' : String)
    (v : α) (h : k' ≠ k) :
    alookup (aupdate l k v) k' = alookup l k' := by
  unfold aupdate
  by_cases hm : amem l k
  · simp only [hm, if_true]
    exact alookup_map_update_ne l k k' v h
  · simp only [hm, Bool.false_eq_true, if_false]
    exact alookup_append_ne l k k' v h

lemma outletAppend_spec (dict : List (String × RaritanField)) (key : String)
    (q : Rat) (qs : List Rat) (h : dictListAt dict key qs) :
    ∃ dict2, outletAppend dict key q = .ok dict2
      ∧ alookup dict2 key = some (.rlist (qs ++ [q]))
      ∧ ∀ k, k ≠ key → alookup dict2 k = alookup dict k := by
  rcases h with hsome | ⟨hnone, rfl⟩
  · have hm : amem dict key = true := by simp [amem, hsome]
    refine ⟨aupdate dict key (.rlist (qs ++ [q])), ?_,
      alookup_aupdate_self _ _ _, ?_⟩
    · unfold outletAppend
      simp only [hm, if_true, hsome]
    · intro k hk
      exact alookup_aupdate_ne dict key k _ hk
  · have hm : amem dict key = false := by simp [amem, hnone]
    have hl1 : alookup (dict ++ [(key, RaritanField.rlist [])]) key =
        some (.rlist []) := alookup_append_of_none dict key _ hnone
    refine ⟨aupdate (dict ++ [(key, RaritanField.rlist [])]) key
      (.rlist ([] ++ [q])), ?_, ?_, ?_⟩
    · unfold outletAppend
      simp only [hm, if_false, Bool.false_eq_true, hl1]
    · have := alookup_aupdate_self (dict ++ [(key, RaritanField.rlist [])])
        key (RaritanField.rlist ([] ++ [q]))
      simpa using this
    · intro k hk
      rw [alookup_aupdate_ne _ key k _ hk, alookup_append_ne dict key k _ hk]

lemma raritanOutletStep_good (dd : List (String × RaritanDD))
    (dict : List (String × RaritanField)) (e : String × String)
    (itemId row raw : Int) (itemName : String) (l : List Int) (d : Int)
    (hp : ParsesAsOutlet e itemId row raw)
    (hn : raritanItemIdName itemId = some itemName)
    (hdd : alookup dd ("outlet" ++ capFirst itemName) = some (.ddList l))
    (hd : pyListGet? l (row - 1) = some d) :
    raritanOutletStep dd dict e =
      outletAppend dict ("outlet" ++ capFirst itemName)
        ((raw : Rat) / (10 : Rat) ^ (d : Int)) := by
  obtain ⟨h1, h2, h3, h4⟩ := hp
  obtain ⟨lastP, hl1, hl2⟩ := Option.bind_eq_some.mp h2
  obtain ⟨sndP, hs1, hs2⟩ := Option.bind_eq_some.mp h3
  unfold raritanOutletStep
  simp only [h1, if_true, hl1, hl2, hs1, hs2, hn, hdd, hd, h4]

lemma raritanOutletStep_skip (dd : List (String × RaritanDD))
    (dict : List (String × RaritanField)) (e : String × String)
    (h : strStartsWith e.1 outletTelemetryOid = false) :
    raritanOutletStep dd dict e = .ok dict := by
  unfold raritanOutletStep
  simp [h]

lemma scaleRun_get (l : List Int) :
    ∀ (raws : List Int) (r : Int) (scaled : List Rat),
      scaleRun l r raws = some scaled →
      scaled.length = raws.length
      ∧ ∀ j : Nat, j < raws.length →
          ∃ raw d, raws.get? j = some raw
            ∧ pyListGet? l (r - 1 + j) = some d
            ∧ scaled.get? j = some ((raw : Rat) / (10 : Rat) ^ (d : Int)) := by
  intro raws
  induction raws with
  | nil =>
    intro r scaled h
    have hsc : scaled = [] := by simpa [scaleRun] using h.symm
    subst hsc
    exact ⟨rfl, fun j hj => absurd hj (by simp)⟩
  | cons raw rest ih =>
    intro r scaled h
    rw [show scaleRun l r (raw :: rest) =
        (match pyListGet? l (r - 1) with
         | none => none
         | some d =>
           match scaleRun l (r + 1) rest with
           | none => none
           | some tail =>
             some (((raw : Rat) / (10 : Rat) ^ (d : Int)) :: tail))
      from rfl] at h
    cases hd : pyListGet? l (r - 1) with
    | none => rw [hd] at h; cases h
    | some d =>
      rw [hd] at h
      cases htail : scaleRun l (r + 1) rest with
      | none => rw [htail] at h; cases h
      | some tail =>
        rw [htail] at h
        have hsc : scaled = ((raw : Rat) / (10 : Rat) ^ (d : Int)) :: tail := by
          cases h
          rfl
        subst hsc
        obtain ⟨hlen, hget⟩ := ih (r + 1) tail htail
        constructor
        · simp [hlen]
        · intro j hj
          cases j with
          | zero =>
            refine ⟨raw, d, rfl, ?_, rfl⟩
            simpa using hd
          | succ j2 =>
            have hj2 : j2 < rest.length := by simpa using hj
            obtain ⟨raw2, d2, hr2, hp2, hs2⟩ := hget j2 hj2
            refine ⟨raw2, d2, hr2, ?_, hs2⟩
            have harith : (r - 1 + ((j2 : Nat) + 1 : Nat) : Int) =
                (r + 1 - 1 + (j2 : Nat)) := by
              push_cast
              ring
            rw [harith]
            exact hp2

/-- C6 counterexample: outlet values are appended in encounter order,
not placed at their row index.  With rows polled in the order 2, 1
(item `rmsCurrent`, digit counts [0, 0]), the row-2 value 100 lands at
1-based position 1 and the row-1 value 200 at position 2 — not at their
row positions, the two values being distinct. -/
theorem c6_counterexample :
    processRaritanOutletTelemetry [("outletRmsCurrent", RaritanDD.ddList [0, 0])]
      [(outletTelemetryOid ++ ".2.1", "100"),
       (outletTelemetryOid ++ ".1.1", "200")] [] =
      .ok [("outletRmsCurrent", RaritanField.rlist
        [((100 : Int) : Rat) / (10 : Rat) ^ ((0 : Int)),
         ((200 : Int) : Rat) / (10 : Rat) ^ ((0 : Int))])]
    ∧ ((100 : Int) : Rat) / (10 : Rat) ^ ((0 : Int)) ≠
        ((200 : Int) : Rat) / (10 : Rat) ^ ((0 : Int)) := by
  constructor
  · rfl
  · norm_num


/-- Every value stored in the telemetry dict is an array entry — the
invariant of the outlet fold, which starts from a dict without outlet
keys and only ever appends via `outletAppend`. -/
def allRlist (dict : List (String × RaritanField)) : Prop :=
  ∀ k f, alookup dict k = some f → ∃ qs, f = RaritanField.rlist qs

lemma allRlist_dictListAt (dict : List (String × RaritanField))
    (h : allRlist dict) (k : String) : ∃ qs, dictListAt dict k qs := by
  cases hl : alookup dict k with
  | none => exact ⟨[], Or.inr ⟨hl, rfl⟩⟩
  | some f =>
    obtain ⟨qs, rfl⟩ := h k f hl
    exact ⟨qs, Or.inl hl⟩

lemma outletAppend_preserves_allRlist (dict dict2 : List (String × RaritanField))
    (key : String) (qs : List Rat) (h : allRlist dict)
    (hlook : alookup dict2 key = some (.rlist qs))
    (hpres : ∀ k, k ≠ key → alookup dict2 k = alookup dict k) :
    allRlist dict2 := by
  intro k f hf
  by_cases hk : k = key
  · subst hk
    rw [hlook] at hf
    cases hf
    exact ⟨qs, rfl⟩
  · rw [hpres k hk] at hf
    exact h k f hf

/-- A poll-result segment in which the outlet entries of item `itemId`
carry consecutive row indices starting at `r`, in encounter order
(`raws` are their integer values), while entries of other outlet items
— as produced by the normal lexicographic walk, which interleaves all
sensor types row by row — may appear anywhere in between, provided
their own processing succeeds and they publish under a different
telemetry key. -/
inductive MixedRun (dd : List (String × RaritanDD)) (itemId : Int)
    (itemName : String) : List (String × String) → Int → List Int → Prop where
  | nil (r : Int) : MixedRun dd itemId itemName [] r []
  | skip (e : String × String) (es : List (String × String)) (r : Int)
      (raws : List Int) :
      strStartsWith e.1 outletTelemetryOid = false →
      MixedRun dd itemId itemName es r raws →
      MixedRun dd itemId itemName (e :: es) r raws
  | other (e : String × String) (es : List (String × String)) (r : Int)
      (raws : List Int) (itemId2 row2 raw2 : Int) (itemName2 : String)
      (l2 : List Int) (d2 : Int) :
      ParsesAsOutlet e itemId2 row2 raw2 →
      raritanItemIdName itemId2 = some itemName2 →
      "outlet" ++ capFirst itemName2 ≠ "outlet" ++ capFirst itemName →
      alookup dd ("outlet" ++ capFirst itemName2) = some (.ddList l2) →
      pyListGet? l2 (row2 - 1) = some d2 →
      MixedRun dd itemId itemName es r raws →
      MixedRun dd itemId itemName (e :: es) r raws
  | good (e : String × String) (es : List (String × String)) (r raw : Int)
      (raws : List Int) :
      ParsesAsOutlet e itemId r raw →
      MixedRun dd itemId itemName es (r + 1) raws →
      MixedRun dd itemId itemName (e :: es) r (raw :: raws)

lemma outlet_fold_mixed (dd : List (String × RaritanDD)) (itemId : Int)
    (itemName : String) (l : List Int)
    (hn : raritanItemIdName itemId = some itemName)
    (hdd : alookup dd ("outlet" ++ capFirst itemName) = some (.ddList l)) :
    ∀ (es : List (String × String)) (r : Int) (raws : List Int),
      MixedRun dd itemId itemName es r raws →
      ∀ (scaled : List Rat) (dict : List (String × RaritanField))
        (qs : List Rat),
      scaleRun l r raws = some scaled →
      allRlist dict →
      dictListAt dict ("outlet" ++ capFirst itemName) qs →
      ∃ dict2, processRaritanOutletTelemetry dd es dict = .ok dict2
        ∧ allRlist dict2
        ∧ dictListAt dict2 ("outlet" ++ capFirst itemName) (qs ++ scaled) := by
  intro es r raws hrun
  induction hrun with
  | nil r =>
    intro scaled dict qs hscale hall hat
    have hsc : scaled = [] := by
      simpa [scaleRun] using hscale.symm
    subst hsc
    exact ⟨dict, rfl, hall, by simpa using hat⟩
  | skip e es2 r2 raws2 hmiss hrest ih =>
    intro scaled dict qs hscale hall hat
    obtain ⟨dict2, hfold, hall2, hat2⟩ := ih scaled dict qs hscale hall hat
    refine ⟨dict2, ?_, hall2, hat2⟩
    unfold processRaritanOutletTelemetry at hfold ⊢
    rw [List.foldlM_cons, raritanOutletStep_skip dd dict e hmiss,
      except_bind_ok]
    exact hfold
  | other e es2 r2 raws2 itemId2 row2 raw2 itemName2 l2 d2 hp2 hn2 hkey2
      hdd2 hidx2 hrest ih =>
    intro scaled dict qs hscale hall hat
    obtain ⟨qs2, hat2⟩ := allRlist_dictListAt dict hall
      ("outlet" ++ capFirst itemName2)
    obtain ⟨dict1, happ, hlook1, hpres1⟩ := outletAppend_spec dict
      ("outlet" ++ capFirst itemName2)
      ((raw2 : Rat) / (10 : Rat) ^ (d2 : Int)) qs2 hat2
    have hall1 : allRlist dict1 :=
      outletAppend_preserves_allRlist dict dict1 _ _ hall hlook1 hpres1
    have hatkey : dictListAt dict1 ("outlet" ++ capFirst itemName) qs := by
      have hpr := hpres1 ("outlet" ++ capFirst itemName)
        (fun hh => hkey2 hh.symm)
      rcases hat with hsome | ⟨hnone, rfl⟩
      · exact Or.inl (hpr.trans hsome)
      · exact Or.inr ⟨hpr.trans hnone, rfl⟩
    obtain ⟨dict2, hfold, hall2, hatf⟩ := ih scaled dict1 qs hscale hall1 hatkey
    refine ⟨dict2, ?_, hall2, hatf⟩
    unfold processRaritanOutletTelemetry at hfold ⊢
    rw [List.foldlM_cons,
      raritanOutletStep_good dd dict e itemId2 row2 raw2 itemName2 l2 d2 hp2
        hn2 hdd2 hidx2,
      happ, except_bind_ok]
    exact hfold
  | good e es2 r2 raw raws2 hp hrest ih =>
    intro scaled dict qs hscale hall hat
    rw [show scaleRun l r2 (raw :: raws2) =
        (match pyListGet? l (r2 - 1) with
         | none => none
         | some d =>
           match scaleRun l (r2 + 1) raws2 with
           | none => none
           | some tail =>
             some (((raw : Rat) / (10 : Rat) ^ (d : Int)) :: tail))
      from rfl] at hscale
    cases hd : pyListGet? l (r2 - 1) with
    | none => rw [hd] at hscale; cases hscale
    | some d =>
      rw [hd] at hscale
      cases htail : scaleRun l (r2 + 1) raws2 with
      | none => rw [htail] at hscale; cases hscale
      | some tail =>
        rw [htail] at hscale
        have hsc : scaled = ((raw : Rat) / (10 : Rat) ^ (d : Int)) :: tail := by
          cases hscale
          rfl
        subst hsc
        obtain ⟨dict1, happ, hlook1, hpres1⟩ := outletAppend_spec dict
          ("outlet" ++ capFirst itemName)
          ((raw : Rat) / (10 : Rat) ^ (d : Int)) qs hat
        have hall1 : allRlist dict1 :=
          outletAppend_preserves_allRlist dict dict1 _ _ hall hlook1 hpres1
        obtain ⟨dict2, hfold, hall2, hat2⟩ := ih tail dict1
          (qs ++ [(raw : Rat) / (10 : Rat) ^ (d : Int)]) htail hall1
          (Or.inl hlook1)
        refine ⟨dict2, ?_, hall2, ?_⟩
        · unfold processRaritanOutletTelemetry at hfold ⊢
          rw [List.foldlM_cons,
            raritanOutletStep_good dd dict e itemId r2 raw itemName l d hp hn
              hdd hd,
            happ, except_bind_ok]
          exact hfold
        · have : qs ++ [(raw : Rat) / (10 : Rat) ^ (d : Int)] ++ tail =
              qs ++ ((raw : Rat) / (10 : Rat) ^ (d : Int)) :: tail := by
            simp
          rwa [this] at hat2

/-- C6 amended: a polled outlet value is always scaled by the cached
per-item decimal-digit count indexed by its 1-based row position within
that item's list and appended at the end of its item's array (encounter
order), leaving every other item's array untouched; consequently, when
the walk returns an item's rows with consecutive indices starting at 1
in encounter order — as the normal lexicographic walk does, with other
outlet items interleaved arbitrarily — the value with row index `r`
appears at the 1-based position `r` of the published array for its item
and nowhere else. -/
theorem c6_amended_row_placement :
    (∀ (dd : List (String × RaritanDD)) (dict : List (String × RaritanField))
       (e : String × String) (itemId row raw : Int) (itemName : String)
       (l : List Int) (d : Int) (qs : List Rat),
       ParsesAsOutlet e itemId row raw →
       raritanItemIdName itemId = some itemName →
       alookup dd ("outlet" ++ capFirst itemName) = some (.ddList l) →
       pyListGet? l (row - 1) = some d →
       dictListAt dict ("outlet" ++ capFirst itemName) qs →
       ∃ dict2, raritanOutletStep dd dict e = .ok dict2
         ∧ alookup dict2 ("outlet" ++ capFirst itemName) =
             some (.rlist (qs ++ [(raw : Rat) / (10 : Rat) ^ (d : Int)]))
         ∧ ∀ k, k ≠ "outlet" ++ capFirst itemName →
             alookup dict2 k = alookup dict k)
    ∧ (∀ (dd : List (String × RaritanDD)) (itemId : Int) (itemName : String)
         (l : List Int) (es : List (String × String)) (raws : List Int)
         (scaled : List Rat),
       raritanItemIdName itemId = some itemName →
       alookup dd ("outlet" ++ capFirst itemName) = some (.ddList l) →
       MixedRun dd itemId itemName es 1 raws →
       scaleRun l 1 raws = some scaled →
       raws ≠ [] →
       ∃ dict2, processRaritanOutletTelemetry dd es [] = .ok dict2
         ∧ alookup dict2 ("outlet" ++ capFirst itemName) =
             some (.rlist scaled)
         ∧ scaled.length = raws.length
         ∧ ∀ r : Nat, 1 ≤ r → r ≤ raws.length →
             ∃ raw d, raws.get? (r - 1) = some raw
               ∧ pyListGet? l ((r : Int) - 1) = some d
               ∧ scaled.get? (r - 1) =
                   some ((raw : Rat) / (10 : Rat) ^ (d : Int))) := by
  constructor
  · intro dd dict e itemId row raw itemName l d qs hp hn hdd hd hat
    obtain ⟨dict2, happ, hlook, hpres⟩ := outletAppend_spec dict
      ("outlet" ++ capFirst itemName)
      ((raw : Rat) / (10 : Rat) ^ (d : Int)) qs hat
    refine ⟨dict2, ?_, hlook, hpres⟩
    rw [raritanOutletStep_good dd dict e itemId row raw itemName l d hp hn
      hdd hd]
    exact happ
  · intro dd itemId itemName l es raws scaled hn hdd hrun hscale hne
    obtain ⟨dict2, hfold, hall2, hat⟩ := outlet_fold_mixed dd itemId itemName
      l hn hdd es 1 raws hrun scaled [] []
      hscale (fun k f hf => by cases hf) (Or.inr ⟨rfl, rfl⟩)
    obtain ⟨hlen, hget⟩ := scaleRun_get l raws 1 scaled hscale
    have hscne : scaled ≠ [] := by
      intro hh
      subst hh
      exact hne (List.length_eq_zero.mp hlen.symm)
    rcases hat with hsome | ⟨_, habs⟩
    · refine ⟨dict2, hfold, by simpa using hsome, hlen, ?_⟩
      intro r h1 h2
      obtain ⟨raw, d, hr, hp, hs⟩ := hget (r - 1) (by omega)
      refine ⟨raw, d, hr, ?_, hs⟩
      have harith : ((1 : Int) - 1 + ((r - 1 : Nat) : Int)) = (r : Int) - 1 := by
        have h1n : (1 : Nat) ≤ r := h1
        push_cast [h1n]
        ring
      rw [← harith]
      exact hp
    · exact absurd (by simpa using habs) hscne

/-- Witness for C6's amended theorem: rows 1 and 2 of item `rmsCurrent`
(id 1, values 200 and 100) interleaved with rows of item `rmsVoltage`
(id 4), as in a lexicographic walk; the `rmsCurrent` values land at
positions 1 and 2. -/
theorem c6_amended_row_placement_witness :
    ∃ dict2,
      processRaritanOutletTelemetry
        [("outletRmsCurrent", RaritanDD.ddList [0, 0]),
         ("outletRmsVoltage", RaritanDD.ddList [0, 0])]
        [(outletTelemetryOid ++ ".1.1", "200"),
         (outletTelemetryOid ++ ".1.4", "35"),
         (outletTelemetryOid ++ ".2.1", "100"),
         (outletTelemetryOid ++ ".2.4", "36")] [] = .ok dict2
      ∧ alookup dict2 "outletRmsCurrent" = some (.rlist
          [((200 : Int) : Rat) / (10 : Rat) ^ ((0 : Int)),
           ((100 : Int) : Rat) / (10 : Rat) ^ ((0 : Int))]) := by
  have hrun : MixedRun
      [("outletRmsCurrent", RaritanDD.ddList [0, 0]),
       ("outletRmsVoltage", RaritanDD.ddList [0, 0])] 1 "rmsCurrent"
      [(outletTelemetryOid ++ ".1.1", "200"),
       (outletTelemetryOid ++ ".1.4", "35"),
       (outletTelemetryOid ++ ".2.1", "100"),
       (outletTelemetryOid ++ ".2.4", "36")] 1 [200, 100] := by
    refine MixedRun.good _ _ 1 200 _ ⟨by decide, by decide, by decide, by decide⟩ ?_
    refine MixedRun.other _ _ 2 _ 4 1 35 "rmsVoltage" [0, 0] 0
      ⟨by decide, by decide, by decide, by decide⟩ (by decide) (by decide)
      rfl (by decide) ?_
    refine MixedRun.good _ _ 2 100 _ ⟨by decide, by decide, by decide, by decide⟩ ?_
    refine MixedRun.other _ _ 3 _ 4 2 36 "rmsVoltage" [0, 0] 0
      ⟨by decide, by decide, by decide, by decide⟩ (by decide) (by decide)
      rfl (by decide) ?_
    exact MixedRun.nil 3
  obtain ⟨dict2, hfold, hlook, hlen, hpos⟩ := c6_amended_row_placement.2
    [("outletRmsCurrent", RaritanDD.ddList [0, 0]),
     ("outletRmsVoltage", RaritanDD.ddList [0, 0])] 1 "rmsCurrent" [0, 0]
    [(outletTelemetryOid ++ ".1.1", "200"),
     (outletTelemetryOid ++ ".1.4", "35"),
     (outletTelemetryOid ++ ".2.1", "100"),
     (outletTelemetryOid ++ ".2.4", "36")] [200, 100]
    [((200 : Int) : Rat) / (10 : Rat) ^ ((0 : Int)),
     ((100 : Int) : Rat) / (10 : Rat) ^ ((0 : Int))]
    rfl rfl hrun rfl (by decide)
  exact ⟨dict2, hfold, hlook⟩
